import Mathlib

/-!
# EV3 UART sensor driver (`EV3UARTSensor.cpp` / `EV3UARTSensor.h`)

A shallow embedding of the driver's protocol engine.

* Machine integers are `Nat` / `Int`; `uint8_t` values are kept below 256,
  `int16_t` arithmetic is wrapped with `toInt16`.
* The serial port `ss` is a record: the bytes waiting to be read, the log of
  what the driver did to the port (bytes written, bit-rate changes) and the
  current bit rate.
* A C `float` is a `FloatVal`: either the conversion `(float) z` of an integer
  `z`, or the reinterpretation of a 32-bit pattern (the `union` in `get_float`).
* Every operation returns `Run α`: it either finishes with a result, or stops
  with a `Fault` together with the sensor state at the instant it stopped.
  A fault is a read that waits for a byte that never comes, or an access the
  C++ language leaves undefined (an array index out of range, a mode pointer
  that was never allocated, a field that was never written).
-/

namespace EV3

/-! ## Constants of `EV3UARTSensor.h` -/

abbrev BYTE_ACK : Nat := 0x04
abbrev BYTE_NACK : Nat := 0x02
abbrev CMD_SELECT : Nat := 0x43
abbrev CMD_TYPE : Nat := 0x40
abbrev CMD_MODES : Nat := 0x49
abbrev CMD_SPEED : Nat := 0x52
abbrev CMD_MASK : Nat := 0xC0
abbrev CMD_INFO : Nat := 0x80
abbrev CMD_LLL_MASK : Nat := 0x38
abbrev CMD_LLL_SHIFT : Nat := 3
abbrev CMD_MMM_MASK : Nat := 0x07
abbrev CMD_DATA : Nat := 0xC0
abbrev CMD_WRITE : Nat := 0x44
abbrev TYPE_COLOR : Nat := 29
abbrev RESET : Nat := 0
abbrev STARTED : Nat := 1
abbrev DATA_MODE : Nat := 2
abbrev MAX_MODES : Nat := 10
abbrev MAX_DATA_ITEMS : Nat := 10

/-! ## Data model -/

/-- A value of C type `float`: `ofInt z` is the result of the conversion
`(float) z`, `ofBits w` is the float whose object representation is the 32-bit
word `w`. -/
inductive FloatVal where
  | ofInt (z : Int)
  | ofBits (w : Nat)
  deriving DecidableEq, Repr

/-- Class `EV3UARTMode`. The constructor body is empty, so only the two strings
are initialised; a field that was never assigned is `none`. Strings are kept as
their list of character codes. -/
structure EV3UARTMode where
  name : List Nat
  symbol : List Nat
  sets : Option Nat
  data_type : Option Nat
  figures : Option Nat
  decimals : Option Nat
  raw_low : Option FloatVal
  raw_high : Option FloatVal
  si_low : Option FloatVal
  si_high : Option FloatVal
  pct_low : Option FloatVal
  pct_high : Option FloatVal
  deriving DecidableEq, Repr

/-- The object built by `new EV3UARTMode()`. -/
def EV3UARTMode.new : EV3UARTMode :=
  { name := [], symbol := [], sets := none, data_type := none, figures := none,
    decimals := none, raw_low := none, raw_high := none, si_low := none,
    si_high := none, pct_low := none, pct_high := none }

/-- What the driver did to the serial port. -/
inductive SerialOp where
  | putc (b : Nat)
  | baud (rate : Nat)
  deriving DecidableEq, Repr

/-- The `RawSerial` object behind `ss`: `rx` are the bytes the sensor has sent
and the driver has not read yet, `ops` the driver's actions on the port in
order, `rate` the bit rate last set, `canWrite` what `writeable()` answers. -/
structure RawSerial where
  rx : List Nat
  ops : List SerialOp
  rate : Nat
  canWrite : Bool
  deriving DecidableEq, Repr

/-- The bytes written to the port, oldest first. -/
def RawSerial.written (p : RawSerial) : List Nat :=
  p.ops.filterMap fun o => match o with
    | .putc b => some b
    | .baud _ => none

/-- Class `EV3UARTSensor` (the member `last_nack` is never used). `mode_array`
holds `none` where no `EV3UARTMode` was allocated; `heart` tells whether the
ticker is attached to `send_nack`. -/
structure EV3UARTSensor where
  speed : Nat
  mode : Nat
  status : Nat
  modes : Nat
  views : Nat
  type : Nat
  ss : RawSerial
  data_errors : Int
  value : List FloatVal
  num_samples : Int
  mode_array : List (Option EV3UARTMode)
  consecutive_errors : Nat
  recent_messages : Int
  heart : Bool
  deriving DecidableEq, Repr

/-- Why an operation stopped without returning. -/
inductive Fault where
  /-- The loop of `read_byte` spins on `readable()` and no byte is left. -/
  | blocked
  /-- A read of `bb[i]` beyond the bytes of the array. -/
  | payloadIndex (i : Nat)
  /-- A write or read of `value[i]` with `i` not below `MAX_DATA_ITEMS`. -/
  | valueIndex (i : Nat)
  /-- An access `mode_array[m]` with `m` not below `MAX_MODES`. -/
  | modeIndex (m : Nat)
  /-- A dereference of `mode_array[m]` where no mode object was allocated. -/
  | noDescriptor (m : Nat)
  /-- A read of a mode field that was never assigned. -/
  | unassigned (m : Nat)
  /-- A write of `sample[i]` beyond the caller's buffer. -/
  | sampleIndex (i : Nat)
  deriving DecidableEq, Repr

/-- Outcome of an operation on the sensor. -/
abbrev Run (α : Type) := Except (Fault × EV3UARTSensor) α

/-- The sensor state when the operation stopped: the returned state, or the
state at the fault. -/
def Run.final : Run EV3UARTSensor → EV3UARTSensor
  | .ok s => s
  | .error (_, s) => s

/-- Conversion of an `int` to `int16_t` (two's-complement wrap). -/
def toInt16 (z : Int) : Int := (z + 32768) % 65536 - 32768

/-! ## Serial port primitives -/

def RawSerial.putc (p : RawSerial) (b : Nat) : RawSerial :=
  { p with ops := p.ops ++ [SerialOp.putc b] }

def RawSerial.baud (p : RawSerial) (r : Nat) : RawSerial :=
  { p with ops := p.ops ++ [SerialOp.baud r], rate := r }

/-- The sensor `s` with `rx` as the bytes still waiting on its port. -/
def with_rx (s : EV3UARTSensor) (rx : List Nat) : EV3UARTSensor :=
  { s with ss := { s.ss with rx := rx } }

/-- Function `read_byte`: wait for a byte and take it (as a `uint8_t`). -/
def read_byte (s : EV3UARTSensor) : Run (Nat × EV3UARTSensor) :=
  match s.ss.rx with
  | [] => .error (.blocked, s)
  | b :: rest => .ok (b % 256, with_rx s rest)

/-! ## Byte-array helpers -/

/-- The read `bb[i]` of a `uint8_t` array holding the bytes `bb`. -/
def byte_at (bb : List Nat) (i : Nat) : Except Fault Nat :=
  match bb[i]? with
  | some b => .ok b
  | none => .error (.payloadIndex i)

/-- Function `get_long`: four bytes, least significant first, as a `uint32_t`. -/
def get_long (bb : List Nat) (offset : Nat) : Except Fault Nat := do
  let b0 ← byte_at bb offset
  let b1 ← byte_at bb (offset + 1)
  let b2 ← byte_at bb (offset + 2)
  let b3 ← byte_at bb (offset + 3)
  pure (b0 ||| (b1 <<< 8) ||| (b2 <<< 16) ||| (b3 <<< 24))

/-- The loop of `get_string`, started at index `i` with `n` rounds left. -/
def get_string_from (bb : List Nat) : Nat → Nat → Except Fault (List Nat)
  | 0, _ => pure []
  | n + 1, i => do
    let b ← byte_at bb i
    if b = 0 then pure []
    else do
      let cs ← get_string_from bb n (i + 1)
      pure (b :: cs)

/-- Function `get_string`: the characters up to the first NUL or to `len`. -/
def get_string (bb : List Nat) (len : Nat) : Except Fault (List Nat) :=
  get_string_from bb len 0

/-- Function `get_float`: the union reinterprets the word of `get_long` as a float. -/
def get_float (bb : List Nat) (offset : Nat) : Except Fault FloatVal := do
  let l ← get_long bb offset
  pure (FloatVal.ofBits l)

/-- Function `get_int`: the two operands are promoted to `int`, or-ed, and the result is
converted to the return type `int16_t`. -/
def get_int (bb : List Nat) (offset : Nat) : Except Fault Int := do
  let b0 ← byte_at bb offset
  let b1 ← byte_at bb (offset + 1)
  pure (toInt16 (Int.ofNat (b0 ||| (b1 <<< 8))))

/-- Function `exp2`: a small power of two. -/
def exp2 (val : Nat) : Nat :=
  match val with
  | 0 => 1
  | 1 => 2
  | 2 => 4
  | 3 => 8
  | 4 => 16
  | 5 => 32
  | _ => 0

/-! ## The protocol engine -/

/-- Run a computation on byte arrays inside an operation on the sensor `s`. -/
def Run.lift {α : Type} (s : EV3UARTSensor) : Except Fault α → Run α
  | .ok a => .ok a
  | .error f => .error (f, s)

/-- The object `*mode_array[m]`. -/
def mode_ptr (s : EV3UARTSensor) (m : Nat) : Run EV3UARTMode :=
  if m < MAX_MODES then
    match s.mode_array.getD m none with
    | some d => .ok d
    | none => .error (.noDescriptor m, s)
  else .error (.modeIndex m, s)

/-- Store `d` as the object `mode_array[m]` points to. -/
def put_mode (s : EV3UARTSensor) (m : Nat) (d : EV3UARTMode) : EV3UARTSensor :=
  { s with mode_array := s.mode_array.set m (some d) }

/-- The assignment `value[i] = v`. -/
def store_value (s : EV3UARTSensor) (i : Nat) (v : FloatVal) : Run EV3UARTSensor :=
  if i < MAX_DATA_ITEMS then .ok { s with value := s.value.set i v }
  else .error (.valueIndex i, s)

/-- Function `reset`: back to `RESET` at 2400 baud. -/
def reset (s : EV3UARTSensor) : EV3UARTSensor :=
  { s with status := RESET, speed := 2400, ss := s.ss.baud 2400 }

/-- Function `send_nack`, the ticker callback. -/
def send_nack (s : EV3UARTSensor) : EV3UARTSensor :=
  if s.ss.canWrite then { s with ss := s.ss.putc BYTE_NACK } else s

/-- The ticker `heart` (an mbed `Ticker`) fires: when a callback is attached it
calls it, and the only callback the driver ever attaches is `send_nack`. -/
def heart_tick (s : EV3UARTSensor) : EV3UARTSensor :=
  if s.heart then send_nack s else s

/-- The loops `for(i=0;i<l;i++) { b = read_byte(); checksum ^= b; bb[i] = b; }`:
reads `n` bytes, returns them with the running checksum. -/
def read_payload : Nat → Nat → EV3UARTSensor → Run (List Nat × Nat × EV3UARTSensor)
  | 0, checksum, s => .ok ([], checksum, s)
  | n + 1, checksum, s => do
    let (b, s1) ← read_byte s
    let (bs, c, s2) ← read_payload n (checksum ^^^ b) s1
    pure (b :: bs, c, s2)

/-- One round of the extraction loop of `check_for_data` (the `switch` on
`mode_array[mode]->data_type`). -/
def decode_sample (bb : List Nat) (mode : Nat) (i : Nat) (s : EV3UARTSensor) :
    Run EV3UARTSensor := do
  let d ← mode_ptr s mode
  match d.data_type with
  | none => .error (.unassigned mode, s)
  | some 0 => do
    let b ← Run.lift s (byte_at bb i)
    store_value s i (.ofInt (Int.ofNat b))
  | some 1 => do
    let v ← Run.lift s (get_int bb (i * 2))
    store_value s i (.ofInt v)
  | some 2 => do
    let v ← Run.lift s (get_long bb (i * 4))
    store_value s i (.ofInt (Int.ofNat v))
  | some 3 => do
    let v ← Run.lift s (get_float bb (i * 4))
    store_value s i v
  | some _ => pure s

/-- The loop `for(int i=0;i<num_samples;i++)`, at index `i` with `n` rounds left. -/
def decode_loop (bb : List Nat) (mode : Nat) : Nat → Nat → EV3UARTSensor → Run EV3UARTSensor
  | 0, _, s => pure s
  | n + 1, i, s => do
    let s1 ← decode_sample bb mode i s
    decode_loop bb mode n (i + 1) s1

/-- The data branch of `check_for_data` (status `DATA_MODE`, a `CMD_DATA`
command byte already read). -/
def data_message (s : EV3UARTSensor) (cmd : Nat) : Run EV3UARTSensor := do
  let lll := (cmd &&& CMD_LLL_MASK) >>> CMD_LLL_SHIFT
  let l := exp2 lll
  let mode := cmd &&& 7
  let checksum := 0xff ^^^ cmd
  let (bb, checksum, s1) ← read_payload l checksum s
  let (sum, s2) ← read_byte s1
  if (s2.type = TYPE_COLOR ∧ mode = 4) ∨ checksum = sum then
    let s3 := { s2 with consecutive_errors := 0,
                        recent_messages := toInt16 (s2.recent_messages + 1) }
    decode_loop bb mode s3.num_samples.toNat 0 s3
  else
    let s3 := { s2 with data_errors := toInt16 (s2.data_errors + 1) }
    let s4 := { s3 with consecutive_errors := (s3.consecutive_errors + 1) % 256 }
    if s3.consecutive_errors > 6 then pure (reset s4) else pure s4

/-- The `BYTE_ACK` branch: drain the port, answer, switch the bit rate, enter
`DATA_MODE` and attach the heartbeat ticker. -/
def ack_message (s : EV3UARTSensor) : EV3UARTSensor :=
  let p0 : RawSerial := { s.ss with rx := [] }
  let p1 := p0.putc BYTE_ACK
  let p2 := p1.baud s.speed
  let p3 := p2.putc BYTE_NACK
  { s with ss := p3, status := DATA_MODE, data_errors := 0, consecutive_errors := 0,
           recent_messages := 0, heart := true }

/-- The `CMD_TYPE` branch. -/
def type_message (s : EV3UARTSensor) (cmd : Nat) : Run EV3UARTSensor := do
  let checksum := 0xff ^^^ cmd
  let (type, s1) ← read_byte s
  let checksum := checksum ^^^ type
  let (sum, s2) ← read_byte s1
  if checksum = sum then pure { s2 with type := type, status := STARTED }
  else pure s2

/-- The loop `for(int i=0;i<=modes && i<MAX_MODES;i++) mode_array[i] = new EV3UARTMode();`
The counter stays below `MAX_MODES`, so `MAX_MODES` rounds are enough. -/
def alloc_modes (modes : Nat) : Nat → Nat → List (Option EV3UARTMode) →
    List (Option EV3UARTMode)
  | 0, _, arr => arr
  | n + 1, i, arr =>
    if i ≤ modes ∧ i < MAX_MODES then
      alloc_modes modes n (i + 1) (arr.set i (some EV3UARTMode.new))
    else arr

/-- The `CMD_MODES` branch. -/
def modes_message (s : EV3UARTSensor) (cmd : Nat) : Run EV3UARTSensor := do
  let checksum := 0xff ^^^ cmd
  let (modes, s1) ← read_byte s
  let checksum := checksum ^^^ modes
  let (views, s2) ← read_byte s1
  let checksum := checksum ^^^ views
  let (sum, s3) ← read_byte s2
  if checksum = sum then
    pure { s3 with views := views, modes := (modes + 1) % 256,
                   mode_array := alloc_modes modes MAX_MODES 0 s3.mode_array }
  else pure s3

/-- The `CMD_SPEED` branch. -/
def speed_message (s : EV3UARTSensor) (cmd : Nat) : Run EV3UARTSensor := do
  let checksum := 0xff ^^^ cmd
  let (bb, checksum, s1) ← read_payload 4 checksum s
  let (sum, s2) ← read_byte s1
  if checksum = sum then do
    let v ← Run.lift s2 (get_long bb 0)
    pure { s2 with speed := v }
  else pure s2

/-- The `switch(type)` of the `CMD_INFO` branch, after the checksum matched. -/
def info_store (s : EV3UARTSensor) (type : Nat) (bb : List Nat) (l : Nat) (mode : Nat) :
    Run EV3UARTSensor :=
  match type with
  | 0 => do
    let modeName ← Run.lift s (get_string bb l)
    let d ← mode_ptr s mode
    pure (put_mode s mode { d with name := modeName })
  | 1 => do
    let low ← Run.lift s (get_float bb 0)
    let high ← Run.lift s (get_float bb 4)
    let d ← mode_ptr s mode
    pure (put_mode s mode { d with raw_low := some low, raw_high := some high })
  | 2 => do
    let low ← Run.lift s (get_float bb 0)
    let high ← Run.lift s (get_float bb 4)
    let d ← mode_ptr s mode
    pure (put_mode s mode { d with pct_low := some low, pct_high := some high })
  | 3 => do
    let low ← Run.lift s (get_float bb 0)
    let high ← Run.lift s (get_float bb 4)
    let d ← mode_ptr s mode
    pure (put_mode s mode { d with si_low := some low, si_high := some high })
  | 4 => do
    let symbol ← Run.lift s (get_string bb l)
    let d ← mode_ptr s mode
    pure (put_mode s mode { d with symbol := symbol })
  | 0x80 => do
    let b0 ← Run.lift s (byte_at bb 0)
    let d0 ← mode_ptr s mode
    let s1 := put_mode s mode { d0 with sets := some b0 }
    let b1 ← Run.lift s1 (byte_at bb 1)
    let d1 ← mode_ptr s1 mode
    let s2 := put_mode s1 mode { d1 with data_type := some b1 }
    let b2 ← Run.lift s2 (byte_at bb 2)
    let d2 ← mode_ptr s2 mode
    let s3 := put_mode s2 mode { d2 with figures := some b2 }
    let b3 ← Run.lift s3 (byte_at bb 3)
    let d3 ← mode_ptr s3 mode
    pure (put_mode s3 mode { d3 with decimals := some b3 })
  | _ => pure s

/-- The `CMD_INFO` branch. -/
def info_message (s : EV3UARTSensor) (cmd : Nat) : Run EV3UARTSensor := do
  let lll := (cmd &&& CMD_LLL_MASK) >>> CMD_LLL_SHIFT
  let l := exp2 lll
  let mode := cmd &&& CMD_MMM_MASK
  let checksum := 0xFF ^^^ cmd
  let (type, s1) ← read_byte s
  let checksum := checksum ^^^ type
  let (bb, checksum, s2) ← read_payload l checksum s1
  let (sum, s3) ← read_byte s2
  if checksum ≠ sum then pure s3
  else info_store s3 type bb l mode

/-- Function `check_for_data`: process one command byte, if one is waiting. -/
def check_for_data (s : EV3UARTSensor) : Run EV3UARTSensor :=
  match s.ss.rx with
  | [] => pure s
  | c :: rest =>
    let cmd := c % 256
    let s0 := with_rx s rest
    if s0.status = DATA_MODE then
      if cmd &&& CMD_MASK = CMD_DATA then data_message s0 cmd else pure s0
    else if s0.status = STARTED ∨ cmd = CMD_TYPE then
      if cmd = BYTE_ACK then pure (ack_message s0)
      else if cmd = CMD_TYPE then type_message s0 cmd
      else if cmd = CMD_MODES then modes_message s0 cmd
      else if cmd = CMD_SPEED then speed_message s0 cmd
      else if cmd &&& CMD_MASK = CMD_INFO then info_message s0 cmd
      else pure s0
    else pure s0

/-! ## Commands of the caller -/

/-- Function `send_select`: command byte, mode byte, checksum. -/
def send_select (s : EV3UARTSensor) (mode : Nat) : EV3UARTSensor :=
  let checksum := 0xff ^^^ CMD_SELECT
  let p1 := s.ss.putc CMD_SELECT
  let p2 := p1.putc mode
  let checksum := checksum ^^^ mode
  { s with ss := p2.putc checksum }

/-- Function `set_mode`: the enumerator `mode` is passed to `send_select` and stored as
`uint8_t`, then indexes `mode_array`. -/
def set_mode (s : EV3UARTSensor) (mode : Nat) : Run EV3UARTSensor := do
  let s1 := send_select s (mode % 256)
  let s2 := { s1 with mode := mode % 256 }
  let d ← mode_ptr s2 mode
  match d.sets with
  | some n => pure { s2 with num_samples := Int.ofNat n }
  | none => .error (.unassigned mode, s2)

/-- The loop of `send_write` at index `i` with `n` rounds left. -/
def send_write_loop (bb : List Nat) : Nat → Nat → Nat → EV3UARTSensor →
    Run (Nat × EV3UARTSensor)
  | 0, _, checksum, s => .ok (checksum, s)
  | n + 1, i, checksum, s => do
    let b ← Run.lift s (byte_at bb i)
    send_write_loop bb n (i + 1) (checksum ^^^ b) { s with ss := s.ss.putc b }

/-- Function `send_write`: a `CMD_WRITE` frame with `len` bytes of `bb`. -/
def send_write (s : EV3UARTSensor) (bb : List Nat) (len : Nat) : Run EV3UARTSensor := do
  let b := (CMD_WRITE ||| (len <<< CMD_LLL_SHIFT)) % 256
  let checksum := 0xFF ^^^ b
  let s1 := { s with ss := s.ss.putc b }
  let (checksum, s2) ← send_write_loop bb len 0 checksum s1
  pure { s2 with ss := s2.ss.putc checksum }

def sample_size (s : EV3UARTSensor) : Int := s.num_samples

def get_current_mode (s : EV3UARTSensor) : Nat := s.mode

def get_number_of_modes (s : EV3UARTSensor) : Nat := s.modes

def get_type (s : EV3UARTSensor) : Nat := s.type

def get_status (s : EV3UARTSensor) : Nat := s.status

def get_speed (s : EV3UARTSensor) : Nat := s.speed

/-- Function `get_mode`: the pointer stored in `mode_array[mode]`, if any. -/
def get_mode (s : EV3UARTSensor) (mode : Nat) : Option EV3UARTMode :=
  s.mode_array.getD mode none

/-- The loop of `fetch_sample` at index `i` with `n` rounds left; `sample` is
the caller's buffer. -/
def fetch_loop (value : List FloatVal) (offset : Nat) : Nat → Nat → List FloatVal →
    Except Fault (List FloatVal)
  | 0, _, sample => pure sample
  | n + 1, i, sample =>
    if i < MAX_DATA_ITEMS then
      match value[i]? with
      | none => .error (.valueIndex i)
      | some v =>
        if offset + i < sample.length then
          fetch_loop value offset n (i + 1) (sample.set (offset + i) v)
        else .error (.sampleIndex (offset + i))
    else .error (.valueIndex i)

/-- Function `fetch_sample`: copy the current values into `sample` from `offset` on. -/
def fetch_sample (s : EV3UARTSensor) (sample : List FloatVal) (offset : Nat) :
    Except Fault (List FloatVal) :=
  fetch_loop s.value offset s.num_samples.toNat 0 sample

/-! ## Running the engine on a byte stream -/

/-- Call `check_for_data` `n` times in a row (the caller's polling loop). -/
def poll : Nat → EV3UARTSensor → Run EV3UARTSensor
  | 0, s => pure s
  | n + 1, s => do
    let s1 ← check_for_data s
    poll n s1

/-- A sensor object after the constructor and `begin`, with the bytes `rx`
waiting on the port. The constructor assigns `status`, `speed`, `mode` and
`num_samples` only; the members it leaves unassigned are given the values
below (no mode object allocated, zeros elsewhere). -/
def begun (rx : List Nat) : EV3UARTSensor :=
  { speed := 2400, mode := 255, status := RESET, modes := 0, views := 0, type := 0,
    ss := { rx := rx, ops := [SerialOp.baud 2400], rate := 2400, canWrite := true },
    data_errors := 0, value := List.replicate MAX_DATA_ITEMS (FloatVal.ofBits 0),
    num_samples := 1, mode_array := List.replicate MAX_MODES none,
    consecutive_errors := 0, recent_messages := 0, heart := false }

/-- The sensor `s` after more bytes `bs` have arrived on the port. -/
def feed (s : EV3UARTSensor) (bs : List Nat) : EV3UARTSensor :=
  { s with ss := { s.ss with rx := s.ss.rx ++ bs } }

/-! ## Vocabulary of the statements -/

/-- XOR of all the bytes of a list. -/
def xor_all (bs : List Nat) : Nat := bs.foldr (· ^^^ ·) 0

/-- The state `s'` differs from `s` in the sample buffer `value` at most. -/
def SameButValue (s s' : EV3UARTSensor) : Prop := s' = { s with value := s'.value }

/-- The state `s'` differs from `s` in the mode catalog `mode_array` at most. -/
def SameButModes (s s' : EV3UARTSensor) : Prop := s' = { s with mode_array := s'.mode_array }

/-- The state `s'` has the sample buffer and the port log of `s`, and its status
is that of `s` or `STARTED`. -/
def Quiet (s s' : EV3UARTSensor) : Prop :=
  s'.value = s.value ∧ s'.ss.ops = s.ss.ops ∧ (s'.status = s.status ∨ s'.status = STARTED)

/-- The sensor `s` after the bytes `bs` have been written to its port, in order. -/
def after_putc (s : EV3UARTSensor) (bs : List Nat) : EV3UARTSensor :=
  { s with ss := { s.ss with ops := s.ss.ops ++ bs.map SerialOp.putc } }

/-- A data frame on the wire: command byte, payload, trailing byte. -/
structure DataFrame where
  cmd : Nat
  payload : List Nat
  sum : Nat
  deriving DecidableEq, Repr

/-- The bytes of the frame in the order they are sent. -/
def DataFrame.bytes (f : DataFrame) : List Nat := f.cmd :: (f.payload ++ [f.sum])

/-- The frame is a data frame of the protocol: bytes, the two top bits of the
command byte set, and a payload of the length the command byte declares. -/
def DataFrame.WellFormed (f : DataFrame) : Prop :=
  f.cmd < 256 ∧ f.cmd &&& 0xC0 = 0xC0 ∧ (∀ b ∈ f.payload, b < 256) ∧ f.sum < 256 ∧
    f.payload.length = exp2 ((f.cmd &&& 0x38) >>> 3)

instance (f : DataFrame) : Decidable f.WellFormed := by
  unfold DataFrame.WellFormed
  infer_instance

/-- The frame passes the verification for a sensor of type `type`: the trailing
byte is the checksum, or the sensor is the colour sensor and the frame is for
mode 4. -/
def DataFrame.Verifies (type : Nat) (f : DataFrame) : Prop :=
  f.sum = 0xFF ^^^ f.cmd ^^^ xor_all f.payload ∨ (type = 29 ∧ f.cmd &&& 7 = 4)

instance (type : Nat) (f : DataFrame) : Decidable (f.Verifies type) := by
  unfold DataFrame.Verifies
  infer_instance

/-- The frame fails the verification for a sensor of type `type`: the trailing
byte is not the checksum, and the colour-sensor exception does not apply. -/
def DataFrame.Fails (type : Nat) (f : DataFrame) : Prop :=
  f.sum ≠ 0xFF ^^^ f.cmd ^^^ xor_all f.payload ∧ ¬ (type = 29 ∧ f.cmd &&& 7 = 4)

instance (type : Nat) (f : DataFrame) : Decidable (f.Fails type) := by
  unfold DataFrame.Fails
  infer_instance

/-- The bytes of a sequence of frames. -/
def wire (frames : List DataFrame) : List Nat := (frames.map DataFrame.bytes).flatten

/-- The value of the 16-bit word `u` read as two's complement. -/
def signed16 (u : Nat) : Int := if u < 32768 then (u : Int) else (u : Int) - 65536

/-- The number of payload bytes one sample takes for the data types 0 (8 bits),
1 (16 bits) and 3 (float). -/
def sample_width (t : Nat) : Nat := if t = 0 then 1 else if t = 1 then 2 else 4

/-- Sample `i` of the payload `b` for the data types 0 (8 bits), 1 (16 bits,
two's complement) and 3 (float, bit pattern). -/
def decoded_sample (t : Nat) (b : List Nat) (i : Nat) : FloatVal :=
  if t = 0 then FloatVal.ofInt (Int.ofNat (b.getD i 0))
  else if t = 1 then FloatVal.ofInt (signed16 (b.getD (i * 2) 0 + 256 * b.getD (i * 2 + 1) 0))
  else FloatVal.ofBits (b.getD (i * 4) 0 ||| (b.getD (i * 4 + 1) 0 <<< 8) |||
    (b.getD (i * 4 + 2) 0 <<< 16) ||| (b.getD (i * 4 + 3) 0 <<< 24))

/-- The number a finite IEEE-754 single-precision bit pattern stands for
(`none` for infinities and NaN). -/
def ieee754_single (w : Nat) : Option ℚ :=
  let sign : ℚ := if w / 2 ^ 31 % 2 = 1 then -1 else 1
  let e : Nat := w / 2 ^ 23 % 256
  let m : Nat := w % 2 ^ 23
  if e = 255 then none
  else if e = 0 then some (sign * (m : ℚ) / 2 ^ 149)
  else some (sign * ((2 ^ 23 + m : Nat) : ℚ) * 2 ^ ((e : Int) - 150))

/-! ## Concrete sessions -/

/-- The handshake of a colour sensor (type 29, six modes): `TYPE`, `MODES`,
the format `INFO` of modes 4 (three 16-bit values) and 0 (one byte),
`SPEED` 57600 and the final `ACK`. -/
def color_handshake : List Nat :=
  [0x40, 29, 0xA2,
   0x49, 5, 2, 0xB1,
   0x94, 0x80, 3, 1, 4, 0, 0xED,
   0x90, 0x80, 1, 0, 3, 0, 0xED,
   0x52, 0x00, 0xE1, 0x00, 0x00, 0x4C,
   0x04]

/-- The colour sensor before the `ACK` of its handshake is processed. -/
def color_started : EV3UARTSensor := (poll 5 (begun color_handshake)).final

/-- The colour sensor after its `TYPE` and `MODES` frames, with the format
`INFO` of mode 1 (payload `[2, 3, 5, 1]`) waiting on the port. -/
def info_pending : EV3UARTSensor :=
  (poll 2 (begun [0x40, 29, 0xA2, 0x49, 5, 2, 0xB1, 0x91, 0x80, 2, 3, 5, 1, 0xEB])).final

/-- The colour sensor once the six frames of its handshake are processed. -/
def color_streaming : EV3UARTSensor := (poll 6 (begun color_handshake)).final

/-- The colour sensor after `set_mode(RGBRaw)`. -/
def color_rgb : EV3UARTSensor := (set_mode color_streaming 4).final

/-- A data frame for mode 4 of the colour sensor with the three 16-bit values
`FF FF`, `00 80`, `34 12` in eight payload bytes. -/
def rgb_frame : DataFrame :=
  { cmd := 0xDC, payload := [0xFF, 0xFF, 0x00, 0x80, 0x34, 0x12, 0, 0], sum := 0x85 }

/-- A data frame for mode 4 that declares four payload bytes, with its checksum. -/
def short_frame : DataFrame := { cmd := 0xD4, payload := [1, 0, 2, 0], sum := 0x28 }

/-- A data frame for mode 0 with one payload byte and a wrong trailing byte
(the checksum would be `0x3F`). -/
def bad_frame : DataFrame := { cmd := 0xC0, payload := [0], sum := 0 }

/-- The colour sensor after seven failing frames, an eighth one waiting. -/
def seven_failures : EV3UARTSensor :=
  (poll 7 (feed color_streaming (wire (List.replicate 8 bad_frame)))).final

/-- A sensor of type 33 whose `TYPE` frame has been processed, with the `MODES`
frame `0x49, m, 0, checksum` waiting on the port. -/
def modes_pending (m : Nat) : EV3UARTSensor :=
  (poll 1 (begun [0x40, 33, 0x9E, 0x49, m, 0, 0xFF ^^^ 0x49 ^^^ m ^^^ 0])).final

/-- The handshake of a sensor of type 33 with one mode, whose format `INFO`
declares eleven 8-bit values per sample. -/
def wide_handshake : List Nat :=
  [0x40, 33, 0x9E,
   0x49, 0, 0, 0xB6,
   0x90, 0x80, 11, 0, 2, 0, 0xE6,
   0x04]

/-- The sensor of type 33 once its handshake is processed. -/
def wide_streaming : EV3UARTSensor := (poll 4 (begun wide_handshake)).final

/-- The sensor of type 33 after `set_mode` of its mode 0. -/
def wide_selected : EV3UARTSensor := (set_mode wide_streaming 0).final

/-- A data frame for mode 0 with 32 payload bytes and its checksum. -/
def wide_frame : DataFrame :=
  { cmd := 0xE8,
    payload := [1, 2, 3, 4, 5, 6, 7, 8, 9, 10, 11, 12, 13, 14, 15, 16,
                17, 18, 19, 20, 21, 22, 23, 24, 25, 26, 27, 28, 29, 30, 31, 32],
    sum := 55 }

/-- The handshake of a sensor of type 30 with one mode of one float value,
without `SPEED` frame. -/
def float_handshake : List Nat :=
  [0x40, 30, 0xA1,
   0x49, 0, 0, 0xB6,
   0x90, 0x80, 1, 3, 5, 1, 0xE9,
   0x04]

/-- The sensor of type 30 once its handshake is processed and its mode 0 selected. -/
def float_selected : EV3UARTSensor :=
  (set_mode (poll 4 (begun float_handshake)).final 0).final

/-- A data frame for mode 0 with the four payload bytes `00 00 80 3F`. -/
def one_frame : DataFrame := { cmd := 0xD0, payload := [0x00, 0x00, 0x80, 0x3F], sum := 0x90 }

/-- The handshake of a sensor of type 32 with one mode of one 32-bit value. -/
def long_handshake : List Nat :=
  [0x40, 32, 0x9F,
   0x49, 0, 0, 0xB6,
   0x90, 0x80, 1, 2, 5, 0, 0xE9,
   0x04]

/-- The sensor of type 32 once its handshake is processed and its mode 0 selected. -/
def long_selected : EV3UARTSensor :=
  (set_mode (poll 4 (begun long_handshake)).final 0).final

/-- A data frame for mode 0 with the four payload bytes `FF FF FF FF`. -/
def minus_one_frame : DataFrame :=
  { cmd := 0xD0, payload := [0xFF, 0xFF, 0xFF, 0xFF], sum := 0x2F }

/-- A sensor of type 33 whose `TYPE` frame has been processed, with the bytes
`bs` waiting on the port. -/
def started_with (bs : List Nat) : EV3UARTSensor :=
  (poll 1 (begun ([0x40, 33, 0x9E] ++ bs))).final

/-- The sensor of type 30 once its handshake is processed. -/
def float_streaming : EV3UARTSensor := (poll 4 (begun float_handshake)).final

/-- A data frame that carries the mode bits 1, with one payload byte and its
checksum. -/
def stray_frame : DataFrame := { cmd := 0xC1, payload := [5], sum := 0x3B }

/-- A sensor of type 33 that has declared one mode (`MODES` byte 0), with the
format `INFO` of mode 3 waiting on the port. -/
def stray_info : EV3UARTSensor :=
  (poll 1 (started_with [0x49, 0, 0, 0xB6, 0x93, 0x80, 1, 0, 3, 0, 0xEE])).final

/-- A data frame that carries the mode bits 0, with four payload bytes and its
checksum. -/
def mode0_frame : DataFrame := { cmd := 0xD0, payload := [1, 2, 3, 4], sum := 0x2B }

/-! ## Lemmas -/

theorem SameButValue.refl (s : EV3UARTSensor) : SameButValue s s := rfl

theorem SameButValue.trans {a b c : EV3UARTSensor} (h1 : SameButValue a b)
    (h2 : SameButValue b c) : SameButValue a c := by
  unfold SameButValue at *
  rw [h2, h1]

theorem store_value_same (s : EV3UARTSensor) (i : Nat) (v : FloatVal) :
    SameButValue s (store_value s i v).final := by
  unfold store_value
  split <;> rfl

theorem lift_error_final {α : Type} (s : EV3UARTSensor) (x : Except Fault α)
    (k : α → Run EV3UARTSensor) (hk : ∀ a, SameButValue s (k a).final) :
    SameButValue s (Run.lift s x >>= k).final := by
  cases x with
  | ok a => exact hk a
  | error f => rfl

theorem decode_sample_same (bb : List Nat) (mode i : Nat) (s : EV3UARTSensor) :
    SameButValue s (decode_sample bb mode i s).final := by
  unfold decode_sample
  cases hm : mode_ptr s mode with
  | error e =>
    obtain ⟨f, s'⟩ := e
    have : s' = s := by
      unfold mode_ptr at hm
      split at hm
      · split at hm <;> simp_all
      · simp_all
    subst this
    rfl
  | ok d =>
    simp only [bind, Except.bind]
    split
    · rfl
    · exact lift_error_final s _ _ (fun a => store_value_same s i _)
    · exact lift_error_final s _ _ (fun a => store_value_same s i _)
    · exact lift_error_final s _ _ (fun a => store_value_same s i _)
    · exact lift_error_final s _ _ (fun a => store_value_same s i _)
    · rfl

theorem bind_final_same (s : EV3UARTSensor) (x : Run EV3UARTSensor)
    (k : EV3UARTSensor → Run EV3UARTSensor) (hx : SameButValue s x.final)
    (hk : ∀ a, SameButValue a (k a).final) : SameButValue s (x >>= k).final := by
  cases x with
  | ok a => exact SameButValue.trans hx (hk a)
  | error e => exact hx

theorem decode_loop_same (bb : List Nat) (mode : Nat) (n : Nat) :
    ∀ (i : Nat) (s : EV3UARTSensor), SameButValue s (decode_loop bb mode n i s).final := by
  induction n with
  | zero => intro i s; rfl
  | succ n ih =>
    intro i s
    unfold decode_loop
    exact bind_final_same s _ _ (decode_sample_same bb mode i s) (fun a => ih (i + 1) a)

theorem read_byte_cons (s : EV3UARTSensor) (b : Nat) (tail : List Nat)
    (h : s.ss.rx = b :: tail) : read_byte s = .ok (b % 256, with_rx s tail) := by
  unfold read_byte
  rw [h]

theorem with_rx_rx (s : EV3UARTSensor) (rx : List Nat) : (with_rx s rx).ss.rx = rx := rfl

theorem with_rx_with_rx (s : EV3UARTSensor) (a b : List Nat) :
    with_rx (with_rx s a) b = with_rx s b := rfl

theorem read_payload_ok (n : Nat) : ∀ (payload tail : List Nat) (c : Nat) (s : EV3UARTSensor),
    payload.length = n → (∀ b ∈ payload, b < 256) → s.ss.rx = payload ++ tail →
    read_payload n c s = .ok (payload, c ^^^ xor_all payload, with_rx s tail) := by
  induction n with
  | zero =>
    intro payload tail c s hlen _ hrx
    have : payload = [] := List.length_eq_zero.mp hlen
    subst this
    simp only [List.nil_append] at hrx
    simp only [read_payload, xor_all, List.foldr_nil, Nat.xor_zero]
    congr
    cases s with
    | mk _ _ _ _ _ _ ss _ _ _ _ _ _ _ =>
      cases ss
      simp_all [with_rx]
  | succ n ih =>
    intro payload tail c s hlen hb hrx
    cases payload with
    | nil => simp at hlen
    | cons b bs =>
      have hb256 : b % 256 = b := Nat.mod_eq_of_lt (hb b (List.mem_cons_self _ _))
      have hrx1 : s.ss.rx = b :: (bs ++ tail) := by simpa using hrx
      have hlen1 : bs.length = n := by simpa using hlen
      have hbs : ∀ x ∈ bs, x < 256 := fun x hx => hb x (List.mem_cons_of_mem _ hx)
      unfold read_payload
      rw [read_byte_cons s b _ hrx1, hb256]
      simp only [bind, Except.bind]
      rw [ih bs tail (c ^^^ b) (with_rx s (bs ++ tail)) hlen1 hbs (with_rx_rx _ _)]
      simp only [pure, Except.pure, with_rx_with_rx, xor_all, List.foldr_cons]
      rw [Nat.xor_assoc]

theorem check_for_data_data (s : EV3UARTSensor) (cmd : Nat) (rest : List Nat)
    (hstatus : s.status = DATA_MODE) (hcmd : cmd < 256) (hdata : cmd &&& 0xC0 = 0xC0)
    (hrx : s.ss.rx = cmd :: rest) :
    check_for_data s = data_message (with_rx s rest) cmd := by
  unfold check_for_data
  rw [hrx]
  have h1 : (with_rx s rest).status = DATA_MODE := hstatus
  simp only [Nat.mod_eq_of_lt hcmd]
  rw [if_pos h1, if_pos hdata]

theorem data_message_eq (s0 : EV3UARTSensor) (cmd sum : Nat) (payload tail : List Nat)
    (hpayload : ∀ b ∈ payload, b < 256) (hsum : sum < 256)
    (hlen : payload.length = exp2 ((cmd &&& 0x38) >>> 3))
    (hrx : s0.ss.rx = payload ++ sum :: tail) :
    data_message s0 cmd =
      if (s0.type = 29 ∧ cmd &&& 7 = 4) ∨ 0xFF ^^^ cmd ^^^ xor_all payload = sum then
        decode_loop payload (cmd &&& 7) s0.num_samples.toNat 0
          { with_rx s0 tail with consecutive_errors := 0,
                                 recent_messages := toInt16 (s0.recent_messages + 1) }
      else if s0.consecutive_errors > 6 then
        .ok (reset { with_rx s0 tail with
                      data_errors := toInt16 (s0.data_errors + 1),
                      consecutive_errors := (s0.consecutive_errors + 1) % 256 })
      else
        .ok { with_rx s0 tail with
                data_errors := toInt16 (s0.data_errors + 1),
                consecutive_errors := (s0.consecutive_errors + 1) % 256 } := by
  unfold data_message
  simp only [bind, Except.bind]
  rw [read_payload_ok _ payload (sum :: tail) _ s0 hlen hpayload hrx]
  simp only []
  rw [read_byte_cons (with_rx s0 (sum :: tail)) sum tail (with_rx_rx _ _)]
  simp only [Nat.mod_eq_of_lt hsum, with_rx_with_rx]
  rfl

theorem toInt16_succ_ne (x : Int) : toInt16 (x + 1) ≠ x := by
  unfold toInt16
  omega

/-- C1: in `DATA_MODE`, for a data command byte `cmd` (top two bits set), a
payload of the declared length and a trailing byte `sum`, `check_for_data`
accepts the frame (clears `consecutive_errors`, increments `recent_messages`)
exactly when `sum` is `0xFF xor cmd xor` (xor of the payload bytes), or the
sensor type is 29 and the mode bits of the frame are 4; in every other case it
rejects it (increments `data_errors`, leaves `recent_messages`) and returns.
Either way exactly the bytes of the frame are taken from the port. -/
theorem check_for_data_accepts_iff (s : EV3UARTSensor) (cmd sum : Nat)
    (payload tail : List Nat)
    (hstatus : s.status = DATA_MODE) (hcmd : cmd < 256) (hdata : cmd &&& 0xC0 = 0xC0)
    (hpayload : ∀ b ∈ payload, b < 256) (hsum : sum < 256)
    (hlen : payload.length = exp2 ((cmd &&& 0x38) >>> 3))
    (hrx : s.ss.rx = cmd :: (payload ++ sum :: tail)) :
    (((check_for_data s).final.consecutive_errors = 0 ∧
        (check_for_data s).final.recent_messages = toInt16 (s.recent_messages + 1)) ↔
      (sum = 0xFF ^^^ cmd ^^^ xor_all payload ∨ (s.type = 29 ∧ cmd &&& 7 = 4))) ∧
    (((check_for_data s).final.data_errors = toInt16 (s.data_errors + 1) ∧
        (check_for_data s).final.recent_messages = s.recent_messages) ↔
      ¬ (sum = 0xFF ^^^ cmd ^^^ xor_all payload ∨ (s.type = 29 ∧ cmd &&& 7 = 4))) ∧
    (¬ (sum = 0xFF ^^^ cmd ^^^ xor_all payload ∨ (s.type = 29 ∧ cmd &&& 7 = 4)) →
      ∃ s', check_for_data s = .ok s') ∧
    (check_for_data s).final.ss.rx = tail := by
  rw [check_for_data_data s cmd _ hstatus hcmd hdata hrx,
    data_message_eq (with_rx s (payload ++ sum :: tail)) cmd sum payload tail hpayload hsum hlen
      (with_rx_rx _ _)]
  by_cases hc : sum = 0xFF ^^^ cmd ^^^ xor_all payload ∨ (s.type = 29 ∧ cmd &&& 7 = 4)
  · have hc' : ((with_rx s (payload ++ sum :: tail)).type = 29 ∧ cmd &&& 7 = 4) ∨
        0xFF ^^^ cmd ^^^ xor_all payload = sum := by
      rcases hc with h | h
      · exact Or.inr h.symm
      · exact Or.inl h
    rw [if_pos hc']
    have hsame := decode_loop_same payload (cmd &&& 7)
      (with_rx s (payload ++ sum :: tail)).num_samples.toNat 0
      { with_rx (with_rx s (payload ++ sum :: tail)) tail with
          consecutive_errors := 0,
          recent_messages := toInt16 ((with_rx s (payload ++ sum :: tail)).recent_messages + 1) }
    unfold SameButValue at hsame
    rw [hsame]
    refine ⟨⟨fun _ => hc, fun _ => ⟨rfl, rfl⟩⟩, ⟨fun h => ?_, fun h => absurd hc h⟩,
      fun h => absurd hc h, rfl⟩
    exact absurd h.1.symm (toInt16_succ_ne s.data_errors)
  · have hc' : ¬ (((with_rx s (payload ++ sum :: tail)).type = 29 ∧ cmd &&& 7 = 4) ∨
        0xFF ^^^ cmd ^^^ xor_all payload = sum) := by
      intro h
      apply hc
      rcases h with h | h
      · exact Or.inr h
      · exact Or.inl h.symm
    rw [if_neg hc']
    split
    · refine ⟨⟨fun h => ?_, fun h => absurd h hc⟩, ⟨fun _ => hc, fun _ => ⟨rfl, rfl⟩⟩,
        fun _ => ⟨_, rfl⟩, rfl⟩
      exact absurd h.2.symm (toInt16_succ_ne s.recent_messages)
    · refine ⟨⟨fun h => ?_, fun h => absurd h hc⟩, ⟨fun _ => hc, fun _ => ⟨rfl, rfl⟩⟩,
        fun _ => ⟨_, rfl⟩, rfl⟩
      exact absurd h.2.symm (toInt16_succ_ne s.recent_messages)

/-- C1 at a concrete input: a colour-sensor frame for mode 4 (`0xDC`, eight
payload bytes) whose trailing byte `0` is not the checksum `0x23` is accepted. -/
theorem check_for_data_accepts_iff_witness :
    (0 : Nat) ≠ 0xFF ^^^ 0xDC ^^^ xor_all [1, 0, 2, 0, 3, 0, 0, 0] ∧
    ((check_for_data (feed color_streaming [0xDC, 1, 0, 2, 0, 3, 0, 0, 0, 0])).final.consecutive_errors
        = 0 ∧
      (check_for_data (feed color_streaming [0xDC, 1, 0, 2, 0, 3, 0, 0, 0, 0])).final.recent_messages
        = toInt16 ((feed color_streaming [0xDC, 1, 0, 2, 0, 3, 0, 0, 0, 0]).recent_messages + 1)) :=
  ⟨by decide,
   (check_for_data_accepts_iff (feed color_streaming [0xDC, 1, 0, 2, 0, 3, 0, 0, 0, 0])
      0xDC 0 [1, 0, 2, 0, 3, 0, 0, 0] [] (by decide) (by decide) (by decide) (by decide)
      (by decide) (by decide) (by decide)).1.mpr (Or.inr ⟨by decide, by decide⟩)⟩

theorem poll_add (a : Nat) : ∀ (b : Nat) (s : EV3UARTSensor),
    poll (a + b) s = poll a s >>= poll b := by
  induction a with
  | zero => intro b s; simp [poll, bind, Except.bind, pure, Except.pure]
  | succ a ih =>
    intro b s
    rw [Nat.add_right_comm]
    unfold poll
    cases h : check_for_data s with
    | ok s1 => simp only [bind, Except.bind]; exact ih b s1
    | error e => rfl

/-- One failing data frame in `DATA_MODE`: the frame is counted, and the
connection is reset when the old count of consecutive errors is above 6. -/
theorem check_for_data_failing (s : EV3UARTSensor) (f : DataFrame) (tail : List Nat)
    (hstatus : s.status = DATA_MODE) (hwf : f.WellFormed) (hfail : f.Fails s.type)
    (hrx : s.ss.rx = f.bytes ++ tail) :
    check_for_data s =
      if s.consecutive_errors > 6 then
        .ok (reset { with_rx s tail with
                      data_errors := toInt16 (s.data_errors + 1),
                      consecutive_errors := (s.consecutive_errors + 1) % 256 })
      else
        .ok { with_rx s tail with
                data_errors := toInt16 (s.data_errors + 1),
                consecutive_errors := (s.consecutive_errors + 1) % 256 } := by
  obtain ⟨hcmd, hdata, hpayload, hsum, hlen⟩ := hwf
  have hrx1 : s.ss.rx = f.cmd :: (f.payload ++ f.sum :: tail) := by
    simpa [DataFrame.bytes] using hrx
  rw [check_for_data_data s f.cmd _ hstatus hcmd hdata hrx1,
    data_message_eq (with_rx s (f.payload ++ f.sum :: tail)) f.cmd f.sum f.payload tail
      hpayload hsum hlen (with_rx_rx _ _)]
  have hc : ¬ (((with_rx s (f.payload ++ f.sum :: tail)).type = 29 ∧ f.cmd &&& 7 = 4) ∨
      0xFF ^^^ f.cmd ^^^ xor_all f.payload = f.sum) := by
    intro h
    rcases h with h | h
    · exact hfail.2 h
    · exact hfail.1 h.symm
  rw [if_neg hc]
  rfl

theorem poll_failing (frames : List DataFrame) : ∀ (s : EV3UARTSensor) (tail : List Nat),
    s.status = DATA_MODE → s.consecutive_errors + frames.length ≤ 7 →
    (∀ f ∈ frames, f.WellFormed ∧ f.Fails s.type) → s.ss.rx = wire frames ++ tail →
    ∃ s', poll frames.length s = .ok s' ∧ s'.status = DATA_MODE ∧
      s'.consecutive_errors = s.consecutive_errors + frames.length ∧ s'.type = s.type ∧
      s'.ss.rx = tail := by
  induction frames with
  | nil =>
    intro s tail hstatus _ _ hrx
    exact ⟨s, rfl, hstatus, rfl, rfl, by simpa [wire] using hrx⟩
  | cons f fs ih =>
    intro s tail hstatus hcount hall hrx
    have hf := hall f (List.mem_cons_self _ _)
    have hrx1 : s.ss.rx = f.bytes ++ (wire fs ++ tail) := by
      simpa [wire, List.append_assoc] using hrx
    have hlen : (f :: fs).length = fs.length + 1 := rfl
    rw [hlen] at hcount ⊢
    have hle : ¬ s.consecutive_errors > 6 := by omega
    have hstep := check_for_data_failing s f (wire fs ++ tail) hstatus hf.1 hf.2 hrx1
    rw [if_neg hle] at hstep
    have hmod : (s.consecutive_errors + 1) % 256 = s.consecutive_errors + 1 :=
      Nat.mod_eq_of_lt (by omega)
    obtain ⟨s', hpoll, h1, h2, h3, h4⟩ := ih
      { with_rx s (wire fs ++ tail) with
          data_errors := toInt16 (s.data_errors + 1),
          consecutive_errors := (s.consecutive_errors + 1) % 256 } tail hstatus
      (by show (s.consecutive_errors + 1) % 256 + fs.length ≤ 7; omega)
      (fun g hg => hall g (List.mem_cons_of_mem _ hg)) rfl
    refine ⟨s', ?_, h1, ?_, h3, h4⟩
    · unfold poll
      rw [hstep]
      exact hpoll
    · rw [h2]
      show (s.consecutive_errors + 1) % 256 + fs.length = s.consecutive_errors + (fs.length + 1)
      omega

theorem wire_append (a b : List DataFrame) : wire (a ++ b) = wire a ++ wire b := by
  simp [wire]

theorem wire_singleton (f : DataFrame) : wire [f] = f.bytes := by
  simp [wire]

/-- C2 (amended): starting in `DATA_MODE` with `consecutive_errors = 0`, after
up to six consecutive data frames that fail verification the status is still
`DATA_MODE` and `consecutive_errors` is the number of failures; after eight
such frames `get_status` returns `RESET`. -/
theorem failures_until_reset (s : EV3UARTSensor) (frames : List DataFrame) (tail : List Nat)
    (hstatus : s.status = DATA_MODE) (hzero : s.consecutive_errors = 0)
    (hall : ∀ f ∈ frames, f.WellFormed ∧ f.Fails s.type)
    (hrx : s.ss.rx = wire frames ++ tail) :
    (frames.length ≤ 6 → ∃ s', poll frames.length s = .ok s' ∧ get_status s' = DATA_MODE ∧
        s'.consecutive_errors = frames.length) ∧
    (frames.length = 8 → ∃ s', poll frames.length s = .ok s' ∧ get_status s' = RESET) := by
  constructor
  · intro hlen
    obtain ⟨s', hp, h1, h2, _, _⟩ := poll_failing frames s tail hstatus (by omega) hall hrx
    exact ⟨s', hp, h1, by omega⟩
  · intro hlen
    have hsplit : frames = frames.take 7 ++ frames.drop 7 := (List.take_append_drop 7 frames).symm
    have htake : (frames.take 7).length = 7 := by simp [List.length_take, hlen]
    have hdrop : (frames.drop 7).length = 1 := by simp [List.length_drop, hlen]
    obtain ⟨g, hg⟩ := List.length_eq_one.mp hdrop
    have hgmem : g ∈ frames := by
      rw [hsplit, hg]
      simp
    have hrx7 : s.ss.rx = wire (frames.take 7) ++ (g.bytes ++ tail) := by
      rw [hrx]
      conv_lhs => rw [hsplit, hg, wire_append, wire_singleton]
      rw [List.append_assoc]
    obtain ⟨s7, hp7, h1, h2, h3, h4⟩ := poll_failing (frames.take 7) s (g.bytes ++ tail) hstatus
      (by omega) (fun f hf => hall f (List.mem_of_mem_take hf)) hrx7
    have hg' := hall g hgmem
    rw [← h3] at hg'
    have hstep := check_for_data_failing s7 g tail h1 hg'.1 hg'.2 h4
    have hgt : s7.consecutive_errors > 6 := by omega
    rw [if_pos hgt] at hstep
    rw [hlen, show (8 : Nat) = 7 + 1 from rfl, poll_add, ← htake, hp7]
    refine ⟨reset { with_rx s7 tail with
                      data_errors := toInt16 (s7.data_errors + 1),
                      consecutive_errors := (s7.consecutive_errors + 1) % 256 }, ?_, rfl⟩
    show poll 1 s7 = _
    unfold poll
    rw [hstep]
    rfl

/-- C2 at a concrete input: six and eight failing frames sent to the colour
sensor after its handshake. -/
theorem failures_until_reset_witness :
    (∃ s', poll 6 (feed color_streaming (wire (List.replicate 6 bad_frame))) = .ok s' ∧
        get_status s' = DATA_MODE ∧ s'.consecutive_errors = 6) ∧
    (∃ s', poll 8 (feed color_streaming (wire (List.replicate 8 bad_frame))) = .ok s' ∧
        get_status s' = RESET) :=
  ⟨(failures_until_reset (feed color_streaming (wire (List.replicate 6 bad_frame)))
      (List.replicate 6 bad_frame) [] (by decide) (by decide) (by decide) (by decide)).1
      (by decide),
   (failures_until_reset (feed color_streaming (wire (List.replicate 8 bad_frame)))
      (List.replicate 8 bad_frame) [] (by decide) (by decide) (by decide) (by decide)).2
      (by decide)⟩

/-- C2 as stated fails: after six consecutive failing data frames, started in
`DATA_MODE` with no consecutive error, `get_status` is still `DATA_MODE`. -/
theorem six_failures_not_reset :
    color_streaming.status = DATA_MODE ∧ color_streaming.consecutive_errors = 0 ∧
    bad_frame.WellFormed ∧ bad_frame.Fails color_streaming.type ∧
    ∃ s', poll 6 (feed color_streaming (wire (List.replicate 6 bad_frame))) = .ok s' ∧
      get_status s' = DATA_MODE ∧ ¬ get_status s' = RESET :=
  ⟨by decide, by decide, by decide, by decide, _, rfl, by decide, by decide⟩

/-- The `BYTE_ACK` byte while `STARTED`. -/
theorem check_for_data_ack (s : EV3UARTSensor) (rest : List Nat)
    (hstatus : s.status = STARTED) (hrx : s.ss.rx = BYTE_ACK :: rest) :
    check_for_data s = .ok (ack_message (with_rx s rest)) := by
  unfold check_for_data
  rw [hrx]
  have h1 : ¬ (with_rx s rest).status = DATA_MODE := by
    show ¬ s.status = DATA_MODE
    rw [hstatus]
    decide
  have h2 : (with_rx s rest).status = STARTED ∨ BYTE_ACK % 256 = CMD_TYPE := Or.inl hstatus
  simp only []
  rw [if_neg h1, if_pos h2, if_pos (by decide)]
  rfl

/-- C3 (amended): a reset does not clear the error counters. `reset` leaves
`data_errors` and `consecutive_errors` as they were; the automatic reset leaves
them at the values reached with the failure that triggered it; both become 0
when the `ACK` that ends the next handshake is processed. -/
theorem reset_keeps_counters (s : EV3UARTSensor) :
    (get_status (reset s) = RESET ∧ (reset s).data_errors = s.data_errors ∧
      (reset s).consecutive_errors = s.consecutive_errors) ∧
    (∀ (f : DataFrame) (tail : List Nat), s.status = DATA_MODE → f.WellFormed →
      f.Fails s.type → s.consecutive_errors > 6 → s.ss.rx = f.bytes ++ tail →
      ∃ s', check_for_data s = .ok s' ∧ get_status s' = RESET ∧
        s'.data_errors = toInt16 (s.data_errors + 1) ∧
        s'.consecutive_errors = (s.consecutive_errors + 1) % 256) ∧
    (∀ rest : List Nat, s.status = STARTED → s.ss.rx = BYTE_ACK :: rest →
      ∃ s', check_for_data s = .ok s' ∧ get_status s' = DATA_MODE ∧
        s'.data_errors = 0 ∧ s'.consecutive_errors = 0) := by
  refine ⟨⟨rfl, rfl, rfl⟩, ?_, ?_⟩
  · intro f tail hstatus hwf hfail hgt hrx
    have hstep := check_for_data_failing s f tail hstatus hwf hfail hrx
    rw [if_pos hgt] at hstep
    exact ⟨_, hstep, rfl, rfl, rfl⟩
  · intro rest hstatus hrx
    exact ⟨_, check_for_data_ack s rest hstatus hrx, rfl, rfl, rfl⟩

/-- C3 as stated fails: after two failing frames and an explicit `reset`, and
after the automatic reset at the eighth failing frame, the counters are not 0. -/
theorem reset_counters_not_zero :
    (∃ s', poll 2 (feed color_streaming (wire (List.replicate 2 bad_frame))) = .ok s' ∧
      get_status (reset s') = RESET ∧ (reset s').data_errors = 2 ∧
      (reset s').consecutive_errors = 2) ∧
    (∃ s', poll 8 (feed color_streaming (wire (List.replicate 8 bad_frame))) = .ok s' ∧
      get_status s' = RESET ∧ s'.data_errors = 8 ∧ s'.consecutive_errors = 8) :=
  ⟨⟨_, rfl, by decide, by decide, by decide⟩, ⟨_, rfl, by decide, by decide, by decide⟩⟩

/-- C3 at concrete inputs: the eighth failing frame of the colour sensor
(automatic reset) and the `ACK` of its handshake. -/
theorem reset_keeps_counters_witness :
    (∃ s', check_for_data seven_failures = .ok s' ∧ get_status s' = RESET ∧
        s'.data_errors = toInt16 (seven_failures.data_errors + 1) ∧
        s'.consecutive_errors = (seven_failures.consecutive_errors + 1) % 256) ∧
    (∃ s', check_for_data color_started = .ok s' ∧ get_status s' = DATA_MODE ∧
        s'.data_errors = 0 ∧ s'.consecutive_errors = 0) :=
  ⟨(reset_keeps_counters seven_failures).2.1 bad_frame [] (by decide) (by decide) (by decide)
      (by decide) (by decide),
   (reset_keeps_counters color_started).2.2 [] (by decide) (by decide)⟩

/-- C4 fails on two accepted frames. With a format that declares 11 values the
extraction loop reaches `value[10]`, outside `value[0..9]`; with three 16-bit
values and a frame of four payload bytes it reads `bb[4]`, outside the payload. -/
theorem check_for_data_out_of_bounds :
    (set_mode wide_streaming 0 = .ok wide_selected ∧ wide_selected.num_samples = 11 ∧
      wide_frame.WellFormed ∧ wide_frame.sum = 0xFF ^^^ wide_frame.cmd ^^^ xor_all wide_frame.payload ∧
      ∃ s', check_for_data (feed wide_selected wide_frame.bytes) =
        .error (Fault.valueIndex 10, s')) ∧
    (set_mode color_streaming 4 = .ok color_rgb ∧ color_rgb.num_samples = 3 ∧
      short_frame.WellFormed ∧ short_frame.sum = 0xFF ^^^ short_frame.cmd ^^^ xor_all short_frame.payload ∧
      ∃ s', check_for_data (feed color_rgb short_frame.bytes) =
        .error (Fault.payloadIndex 4, s')) :=
  ⟨⟨rfl, by decide, by decide, by decide, _, rfl⟩, ⟨rfl, by decide, by decide, by decide, _, rfl⟩⟩

theorem mode_ptr_error (s : EV3UARTSensor) (m : Nat) (f : Fault) (s' : EV3UARTSensor)
    (h : mode_ptr s m = .error (f, s')) : s' = s := by
  unfold mode_ptr at h
  split at h
  · split at h <;> simp_all
  · simp_all

theorem written_putc (p : RawSerial) (b : Nat) : (p.putc b).written = p.written ++ [b] := by
  simp [RawSerial.putc, RawSerial.written, List.filterMap_append]

theorem send_select_written (s : EV3UARTSensor) (m : Nat) :
    (send_select s m).ss.written = s.ss.written ++ [0x43, m, 0xFF ^^^ 0x43 ^^^ m] := by
  simp only [send_select, written_putc, List.append_assoc, List.cons_append, List.nil_append]

/-- C5 (amended): `set_mode(m)` makes no check of `m` against the number of
modes. For every `m` it writes the three bytes `0x43, m, 0xFF xor 0x43 xor m`
and stores `m` as the current mode; when slot `m` holds a descriptor whose
`sets` was received it returns with the sample count set to that `sets`. -/
theorem set_mode_unchecked (s : EV3UARTSensor) (m : Nat) :
    ((set_mode s m).final.ss.written =
        s.ss.written ++ [0x43, m % 256, 0xFF ^^^ 0x43 ^^^ (m % 256)] ∧
      get_current_mode (set_mode s m).final = m % 256) ∧
    (∀ (d : EV3UARTMode) (k : Nat), m < MAX_MODES → get_mode s m = some d → d.sets = some k →
      ∃ s', set_mode s m = .ok s' ∧ s'.ss.written = s.ss.written ++ [0x43, m, 0xFF ^^^ 0x43 ^^^ m] ∧
        get_current_mode s' = m ∧ sample_size s' = k) := by
  have hw := send_select_written s (m % 256)
  constructor
  · unfold set_mode
    cases hp : mode_ptr { send_select s (m % 256) with mode := m % 256 } m with
    | error e =>
      obtain ⟨f, s'⟩ := e
      have hs' := mode_ptr_error _ _ _ _ hp
      subst hs'
      simp only [bind, Except.bind, hp]
      exact ⟨hw, rfl⟩
    | ok d =>
      simp only [bind, Except.bind, hp]
      cases d.sets with
      | none => exact ⟨hw, rfl⟩
      | some n => exact ⟨hw, rfl⟩
  · intro d k hm hd hk
    have hmod : m % 256 = m := Nat.mod_eq_of_lt (by unfold MAX_MODES at hm; omega)
    rw [hmod] at hw
    have hp : mode_ptr { send_select s m with mode := m } m = .ok d := by
      unfold mode_ptr
      rw [if_pos hm]
      unfold get_mode at hd
      have hd' : ({ send_select s m with mode := m } : EV3UARTSensor).mode_array.getD m none
          = some d := hd
      rw [hd']
    unfold set_mode
    simp only [bind, Except.bind, hmod, hp, hk]
    exact ⟨_, rfl, hw, rfl, rfl⟩

/-- C5 at a concrete input: `set_mode(RGBRaw)` on the colour sensor. -/
theorem set_mode_unchecked_witness :
    ∃ s', set_mode color_streaming 4 = .ok s' ∧
      s'.ss.written = color_streaming.ss.written ++ [0x43, 4, 0xFF ^^^ 0x43 ^^^ 4] ∧
      get_current_mode s' = 4 ∧ sample_size s' = (3 : Nat) :=
  (set_mode_unchecked color_streaming 4).2
    { EV3UARTMode.new with sets := some 3, data_type := some 1, figures := some 4,
                           decimals := some 0 }
    3 (by decide) (by decide) (by decide)

/-- C5 as stated fails: the sensor of type 33 has one mode, and `set_mode(1)`
writes the three bytes `0x43, 0x01, 0xBD` and changes the current mode before
it stops at the missing mode object. -/
theorem set_mode_out_of_range_sends :
    get_number_of_modes wide_streaming = 1 ∧ get_current_mode wide_streaming = 255 ∧
    ∃ s', set_mode wide_streaming 1 = .error (Fault.noDescriptor 1, s') ∧
      s'.ss.written = wide_streaming.ss.written ++ [0x43, 0x01, 0xBD] ∧
      get_current_mode s' = 1 :=
  ⟨by decide, by decide, _, rfl, by decide, by decide⟩

/-- The dispatch of `check_for_data` on a command byte while `STARTED`. -/
theorem check_for_data_started (s : EV3UARTSensor) (cmd : Nat) (rest : List Nat)
    (hstatus : s.status = STARTED) (hcmd : cmd < 256) (hrx : s.ss.rx = cmd :: rest) :
    check_for_data s =
      if cmd = BYTE_ACK then pure (ack_message (with_rx s rest))
      else if cmd = CMD_TYPE then type_message (with_rx s rest) cmd
      else if cmd = CMD_MODES then modes_message (with_rx s rest) cmd
      else if cmd = CMD_SPEED then speed_message (with_rx s rest) cmd
      else if cmd &&& CMD_MASK = CMD_INFO then info_message (with_rx s rest) cmd
      else pure (with_rx s rest) := by
  unfold check_for_data
  rw [hrx]
  have h1 : ¬ (with_rx s rest).status = DATA_MODE := by
    show ¬ s.status = DATA_MODE
    rw [hstatus]
    decide
  have h2 : (with_rx s rest).status = STARTED ∨ cmd = CMD_TYPE := Or.inl hstatus
  simp only [Nat.mod_eq_of_lt hcmd]
  rw [if_neg h1, if_pos h2]

theorem alloc_modes_length (modes n : Nat) : ∀ (i : Nat) (arr : List (Option EV3UARTMode)),
    (alloc_modes modes n i arr).length = arr.length := by
  induction n with
  | zero => intro i arr; rfl
  | succ n ih =>
    intro i arr
    unfold alloc_modes
    split
    · rw [ih, List.length_set]
    · rfl

theorem alloc_modes_getD (modes n : Nat) : ∀ (i : Nat) (arr : List (Option EV3UARTMode))
    (j : Nat), (alloc_modes modes n i arr).getD j none =
      if i ≤ j ∧ j < i + n ∧ j ≤ modes ∧ j < MAX_MODES ∧ j < arr.length
      then some EV3UARTMode.new else arr.getD j none := by
  induction n with
  | zero =>
    intro i arr j
    have : ¬ (i ≤ j ∧ j < i + 0 ∧ j ≤ modes ∧ j < MAX_MODES ∧ j < arr.length) := by omega
    rw [if_neg this]
    rfl
  | succ n ih =>
    intro i arr j
    unfold alloc_modes
    by_cases hc : i ≤ modes ∧ i < MAX_MODES
    · rw [if_pos hc, ih, List.length_set]
      by_cases hij : i = j
      · subst hij
        by_cases hlen : i < arr.length
        · have h1 : ¬ (i + 1 ≤ i ∧ i < i + 1 + n ∧ i ≤ modes ∧ i < MAX_MODES ∧ i < arr.length) := by
            omega
          have h2 : i ≤ i ∧ i < i + (n + 1) ∧ i ≤ modes ∧ i < MAX_MODES ∧ i < arr.length :=
            ⟨Nat.le_refl _, by omega, hc.1, hc.2, hlen⟩
          rw [if_neg h1, if_pos h2, List.getD_eq_getElem?_getD, List.getElem?_set_self hlen]
          rfl
        · have h1 : ¬ (i + 1 ≤ i ∧ i < i + 1 + n ∧ i ≤ modes ∧ i < MAX_MODES ∧ i < arr.length) := by
            omega
          have h2 : ¬ (i ≤ i ∧ i < i + (n + 1) ∧ i ≤ modes ∧ i < MAX_MODES ∧ i < arr.length) := by
            omega
          rw [if_neg h1, if_neg h2, List.getD_eq_getElem?_getD, List.getD_eq_getElem?_getD,
            List.getElem?_set, if_pos rfl, if_neg hlen, List.getElem?_eq_none (by omega)]
      · have hget : (arr.set i (some EV3UARTMode.new)).getD j none = arr.getD j none := by
          rw [List.getD_eq_getElem?_getD, List.getD_eq_getElem?_getD, List.getElem?_set_ne hij]
        rw [hget]
        by_cases h1 : i + 1 ≤ j ∧ j < i + 1 + n ∧ j ≤ modes ∧ j < MAX_MODES ∧ j < arr.length
        · have h2 : i ≤ j ∧ j < i + (n + 1) ∧ j ≤ modes ∧ j < MAX_MODES ∧ j < arr.length := by
            omega
          rw [if_pos h1, if_pos h2]
        · have h2 : ¬ (i ≤ j ∧ j < i + (n + 1) ∧ j ≤ modes ∧ j < MAX_MODES ∧ j < arr.length) := by
            omega
          rw [if_neg h1, if_neg h2]
    · rw [if_neg hc]
      have h2 : ¬ (i ≤ j ∧ j < i + (n + 1) ∧ j ≤ modes ∧ j < MAX_MODES ∧ j < arr.length) := by
        omega
      rw [if_neg h2]

/-- A `CMD_MODES` frame with a matching checksum, while `STARTED`. -/
theorem check_for_data_modes (s : EV3UARTSensor) (m v : Nat) (tail : List Nat)
    (hstatus : s.status = STARTED) (hm : m < 256) (hv : v < 256)
    (hrx : s.ss.rx = 0x49 :: m :: v :: (0xFF ^^^ 0x49 ^^^ m ^^^ v) :: tail) :
    check_for_data s =
      .ok { with_rx s tail with
              views := v, modes := (m + 1) % 256,
              mode_array := alloc_modes m MAX_MODES 0 s.mode_array } := by
  have hsum : (0xFF ^^^ 0x49 ^^^ m ^^^ v) % 256 = 0xFF ^^^ 0x49 ^^^ m ^^^ v :=
    Nat.mod_eq_of_lt (@Nat.xor_lt_two_pow _ _ 8
      (@Nat.xor_lt_two_pow _ _ 8 (by decide) hm) hv)
  rw [check_for_data_started s 0x49 _ hstatus (by decide) hrx]
  simp only [show ¬ (0x49 : Nat) = BYTE_ACK by decide, show ¬ (0x49 : Nat) = CMD_TYPE by decide,
    show (0x49 : Nat) = CMD_MODES by decide, if_true, if_false]
  unfold modes_message
  rw [read_byte_cons _ m _ (with_rx_rx _ _)]
  simp only [bind, Except.bind, with_rx_with_rx]
  rw [read_byte_cons _ v _ (with_rx_rx _ _)]
  simp only [with_rx_with_rx]
  rw [read_byte_cons _ _ tail (with_rx_rx _ _)]
  simp only [with_rx_with_rx, Nat.mod_eq_of_lt hm, Nat.mod_eq_of_lt hv, hsum, if_true]
  rfl

/-- C6 (amended): while `STARTED`, after a `MODES` frame `0x49, m, v, checksum`
with a matching checksum and `m ≤ 254`, `get_number_of_modes` is `m + 1` (not
clamped to 10), the slots `0..min(m, 9)` of the catalog hold a new descriptor
and the other slots are as before. -/
theorem modes_frame_catalog (s : EV3UARTSensor) (m v : Nat) (tail : List Nat)
    (hstatus : s.status = STARTED) (hm : m < 255) (hv : v < 256)
    (hlen : s.mode_array.length = MAX_MODES)
    (hrx : s.ss.rx = 0x49 :: m :: v :: (0xFF ^^^ 0x49 ^^^ m ^^^ v) :: tail) :
    ∃ s', check_for_data s = .ok s' ∧ get_number_of_modes s' = m + 1 ∧
      (∀ j, j ≤ min m 9 → get_mode s' j = some EV3UARTMode.new) ∧
      (∀ j, min m 9 < j → get_mode s' j = get_mode s j) := by
  refine ⟨_, check_for_data_modes s m v tail hstatus (by omega) hv hrx, ?_, ?_, ?_⟩
  · show (m + 1) % 256 = m + 1
    exact Nat.mod_eq_of_lt (by omega)
  · intro j hj
    show (alloc_modes m MAX_MODES 0 s.mode_array).getD j none = _
    rw [alloc_modes_getD, if_pos]
    unfold MAX_MODES at *
    omega
  · intro j hj
    show (alloc_modes m MAX_MODES 0 s.mode_array).getD j none = s.mode_array.getD j none
    rw [alloc_modes_getD, if_neg]
    unfold MAX_MODES at *
    omega

/-- C6 at a concrete input: `m = 2` on an empty catalog gives three modes and
exactly the descriptors 0, 1, 2. -/
theorem modes_frame_catalog_witness :
    (∃ s', check_for_data (modes_pending 2) = .ok s' ∧ get_number_of_modes s' = 2 + 1 ∧
      (∀ j, j ≤ min 2 9 → get_mode s' j = some EV3UARTMode.new) ∧
      (∀ j, min 2 9 < j → get_mode s' j = get_mode (modes_pending 2) j)) ∧
    (modes_pending 2).mode_array = List.replicate 10 none ∧
    (check_for_data (modes_pending 2)).final.mode_array =
      List.replicate 3 (some EV3UARTMode.new) ++ List.replicate 7 none :=
  ⟨modes_frame_catalog (modes_pending 2) 2 0 [] (by decide) (by decide) (by decide) (by decide)
      (by decide),
   by decide, by decide⟩

/-- C6 as stated fails: after the `MODES` frame with `m = 10`,
`get_number_of_modes` is 11, not `min(m + 1, 10) = 10`. -/
theorem modes_count_not_clamped :
    (modes_pending 10).status = STARTED ∧
    (modes_pending 10).ss.rx = [0x49, 10, 0, 0xFF ^^^ 0x49 ^^^ 10 ^^^ 0] ∧
    ∃ s', check_for_data (modes_pending 10) = .ok s' ∧ get_number_of_modes s' = 11 ∧
      ¬ get_number_of_modes s' = min (10 + 1) 10 :=
  ⟨by decide, by decide, _, rfl, by decide, by decide⟩

theorem xor_all_lt (bs : List Nat) (h : ∀ b ∈ bs, b < 256) : xor_all bs < 256 := by
  induction bs with
  | nil => decide
  | cons b bs ih =>
    have h1 : b < 2 ^ 8 := h b (List.mem_cons_self _ _)
    have h2 : xor_all bs < 2 ^ 8 := ih (fun x hx => h x (List.mem_cons_of_mem _ hx))
    exact @Nat.xor_lt_two_pow _ _ 8 h1 h2

theorem xor_lt_256 (a b : Nat) (ha : a < 256) (hb : b < 256) : a ^^^ b < 256 :=
  @Nat.xor_lt_two_pow _ _ 8 ha hb

/-- The `CMD_INFO` branch on a complete frame. -/
theorem info_message_eq (s0 : EV3UARTSensor) (cmd type sum : Nat) (payload tail : List Nat)
    (htype : type < 256) (hpayload : ∀ b ∈ payload, b < 256) (hsum : sum < 256)
    (hlen : payload.length = exp2 ((cmd &&& 0x38) >>> 3))
    (hrx : s0.ss.rx = type :: (payload ++ sum :: tail)) :
    info_message s0 cmd =
      if 0xFF ^^^ cmd ^^^ type ^^^ xor_all payload ≠ sum then .ok (with_rx s0 tail)
      else info_store (with_rx s0 tail) type payload (exp2 ((cmd &&& 0x38) >>> 3))
        (cmd &&& 7) := by
  unfold info_message
  simp only [bind, Except.bind]
  rw [read_byte_cons s0 type _ hrx]
  simp only [Nat.mod_eq_of_lt htype]
  rw [read_payload_ok _ payload (sum :: tail) _ _ hlen hpayload (with_rx_rx _ _)]
  simp only [with_rx_with_rx]
  rw [read_byte_cons _ sum tail (with_rx_rx _ _)]
  simp only [Nat.mod_eq_of_lt hsum, with_rx_with_rx]
  rfl

theorem mode_ptr_put_mode (s : EV3UARTSensor) (m : Nat) (d : EV3UARTMode)
    (hm : m < MAX_MODES) (hlen : m < s.mode_array.length) :
    mode_ptr (put_mode s m d) m = .ok d := by
  unfold mode_ptr put_mode
  rw [if_pos hm]
  simp only [List.getD_eq_getElem?_getD, List.getElem?_set_self hlen, Option.getD_some]

theorem put_mode_put_mode (s : EV3UARTSensor) (m : Nat) (d d' : EV3UARTMode) :
    put_mode (put_mode s m d) m d' = put_mode s m d' := by
  unfold put_mode
  simp only [List.set_set]

/-- The format case (`0x80`) of `info_store` on a payload of four bytes or more. -/
theorem info_store_format (s : EV3UARTSensor) (b0 b1 b2 b3 : Nat) (more : List Nat)
    (l m : Nat) (d : EV3UARTMode) (hm : m < MAX_MODES) (hd : get_mode s m = some d) :
    info_store s 0x80 (b0 :: b1 :: b2 :: b3 :: more) l m =
      .ok (put_mode s m { d with sets := some b0, data_type := some b1,
                                 figures := some b2, decimals := some b3 }) := by
  have hlen : m < s.mode_array.length := by
    unfold get_mode at hd
    by_contra hcon
    rw [List.getD_eq_getElem?_getD, List.getElem?_eq_none (by omega)] at hd
    simp at hd
  have hp : mode_ptr s m = .ok d := by
    unfold mode_ptr
    rw [if_pos hm]
    unfold get_mode at hd
    rw [hd]
  unfold info_store
  simp only [bind, Except.bind, Run.lift, byte_at, List.getElem?_cons_zero,
    List.getElem?_cons_succ, hp, pure, Except.pure]
  rw [mode_ptr_put_mode s m _ hm hlen]
  simp only [put_mode_put_mode]
  rw [mode_ptr_put_mode s m _ hm hlen]
  simp only [put_mode_put_mode]
  rw [mode_ptr_put_mode s m _ hm hlen]

theorem get_mode_put_mode_ne (s : EV3UARTSensor) (m j : Nat) (d : EV3UARTMode) (h : j ≠ m) :
    get_mode (put_mode s m d) j = get_mode s j := by
  unfold get_mode put_mode
  simp only [List.getD_eq_getElem?_getD, List.getElem?_set_ne (Ne.symm h)]

theorem get_mode_put_mode_self (s : EV3UARTSensor) (m : Nat) (d : EV3UARTMode)
    (h : m < s.mode_array.length) : get_mode (put_mode s m d) m = some d := by
  unfold get_mode put_mode
  simp only [List.getD_eq_getElem?_getD, List.getElem?_set_self h, Option.getD_some]

theorem get_mode_some_lt (s : EV3UARTSensor) (m : Nat) (d : EV3UARTMode)
    (hd : get_mode s m = some d) : m < s.mode_array.length := by
  unfold get_mode at hd
  by_contra hcon
  rw [List.getD_eq_getElem?_getD, List.getElem?_eq_none (by omega)] at hd
  simp at hd

/-- C7: while `STARTED`, an `INFO` frame with info type `0x80`, a matching
checksum, a payload `b0 b1 b2 b3 ...` of the declared length and a mode index
whose descriptor exists stores `sets = b0`, `data_type = b1`, `figures = b2`,
`decimals = b3` in that descriptor, keeps its other fields, and leaves every
other descriptor unchanged. -/
theorem info_format_frame (s : EV3UARTSensor) (cmd b0 b1 b2 b3 : Nat) (more tail : List Nat)
    (d : EV3UARTMode)
    (hstatus : s.status = STARTED) (hcmd : cmd < 256) (hinfo : cmd &&& 0xC0 = 0x80)
    (hbytes : ∀ b ∈ b0 :: b1 :: b2 :: b3 :: more, b < 256)
    (hlen : (b0 :: b1 :: b2 :: b3 :: more).length = exp2 ((cmd &&& 0x38) >>> 3))
    (hd : get_mode s (cmd &&& 7) = some d)
    (hrx : s.ss.rx = cmd :: 0x80 :: (b0 :: b1 :: b2 :: b3 :: more ++
      (0xFF ^^^ cmd ^^^ 0x80 ^^^ xor_all (b0 :: b1 :: b2 :: b3 :: more)) :: tail)) :
    ∃ s', check_for_data s = .ok s' ∧
      get_mode s' (cmd &&& 7) = some { d with
        sets := some b0, data_type := some b1, figures := some b2, decimals := some b3 } ∧
      (∀ j, j ≠ cmd &&& 7 → get_mode s' j = get_mode s j) ∧
      get_status s' = STARTED ∧ s'.ss.rx = tail := by
  have h1 : ¬ cmd = BYTE_ACK := by rintro rfl; revert hinfo; decide
  have h2 : ¬ cmd = CMD_TYPE := by rintro rfl; revert hinfo; decide
  have h3 : ¬ cmd = CMD_MODES := by rintro rfl; revert hinfo; decide
  have h4 : ¬ cmd = CMD_SPEED := by rintro rfl; revert hinfo; decide
  have hm : cmd &&& 7 < MAX_MODES := Nat.lt_of_le_of_lt Nat.and_le_right (by decide)
  have hsum : 0xFF ^^^ cmd ^^^ 0x80 ^^^ xor_all (b0 :: b1 :: b2 :: b3 :: more) < 256 :=
    xor_lt_256 _ _ (xor_lt_256 _ _ (xor_lt_256 _ _ (by decide) hcmd) (by decide))
      (xor_all_lt _ hbytes)
  rw [check_for_data_started s cmd _ hstatus hcmd hrx, if_neg h1, if_neg h2, if_neg h3,
    if_neg h4, if_pos hinfo,
    info_message_eq _ cmd 0x80 _ (b0 :: b1 :: b2 :: b3 :: more) tail (by decide) hbytes hsum hlen
      (with_rx_rx _ _),
    if_neg (by simp), with_rx_with_rx,
    info_store_format (with_rx s tail) b0 b1 b2 b3 more _ (cmd &&& 7) d hm hd]
  exact ⟨_, rfl, get_mode_put_mode_self _ _ _ (get_mode_some_lt s _ d hd),
    fun j hj => get_mode_put_mode_ne _ _ j _ hj, hstatus, rfl⟩

/-- C7 at a concrete input: during its handshake the colour sensor receives the
format `INFO` of mode 1 with payload `[2, 3, 5, 1]`; afterwards `get_mode(1)`
has `sets = 2` and `data_type = 3`. -/
theorem info_format_frame_witness :
    ∃ s', check_for_data info_pending = .ok s' ∧
      get_mode s' (0x91 &&& 7) = some { EV3UARTMode.new with
        sets := some 2, data_type := some 3, figures := some 5, decimals := some 1 } ∧
      (∀ j, j ≠ 0x91 &&& 7 →
        get_mode s' j = get_mode info_pending j) ∧
      get_status s' = STARTED ∧ s'.ss.rx = [] :=
  info_format_frame info_pending
    0x91 2 3 5 1 [] [] EV3UARTMode.new (by decide) (by decide) (by decide) (by decide)
    (by decide) (by decide) (by decide)

theorem store_value_ok (s : EV3UARTSensor) (i : Nat) (v : FloatVal) (hi : i < MAX_DATA_ITEMS) :
    store_value s i v = .ok { s with value := s.value.set i v } := by
  unfold store_value
  rw [if_pos hi]

/-- The extraction loop when every round stores a value: round `j` stores `v j`. -/
theorem decode_loop_ok (bb : List Nat) (mode : Nat) (v : Nat → FloatVal) (k : Nat) :
    ∀ (i : Nat) (s : EV3UARTSensor), i + k ≤ MAX_DATA_ITEMS →
      s.value.length = MAX_DATA_ITEMS →
      (∀ j, i ≤ j → j < i + k → ∀ s0 : EV3UARTSensor, s0.mode_array = s.mode_array →
        decode_sample bb mode j s0 = store_value s0 j (v j)) →
      ∃ s', decode_loop bb mode k i s = .ok s' ∧ SameButValue s s' ∧
        s'.value.length = MAX_DATA_ITEMS ∧
        (∀ j, i ≤ j → j < i + k → s'.value[j]? = some (v j)) ∧
        (∀ j, j < i ∨ i + k ≤ j → s'.value[j]? = s.value[j]?) := by
  induction k with
  | zero =>
    intro i s _ hlen _
    exact ⟨s, rfl, rfl, hlen, fun j h1 h2 => by omega, fun j _ => rfl⟩
  | succ k ih =>
    intro i s hik hlen hround
    have hi : i < MAX_DATA_ITEMS := by omega
    have hstep := hround i (Nat.le_refl _) (by omega) s rfl
    rw [store_value_ok s i (v i) hi] at hstep
    obtain ⟨s', hrun, hsame, hlen', hin, hout⟩ := ih (i + 1) { s with value := s.value.set i (v i) }
      (by omega) (by simpa using hlen)
      (fun j h1 h2 s0 h0 => hround j (by omega) (by omega) s0 h0)
    refine ⟨s', ?_, ?_, hlen', ?_, ?_⟩
    · unfold decode_loop
      rw [hstep]
      exact hrun
    · unfold SameButValue at hsame ⊢
      rw [hsame]
    · intro j h1 h2
      by_cases hj : j = i
      · subst hj
        rw [hout j (Or.inl (Nat.lt_succ_self _))]
        exact List.getElem?_set_self (by omega)
      · exact hin j (by omega) (by omega)
    · intro j hj
      rw [hout j (by omega)]
      exact List.getElem?_set_ne (by omega)

theorem byte_at_lt (bb : List Nat) (i : Nat) (h : i < bb.length) :
    byte_at bb i = .ok (bb.getD i 0) := by
  unfold byte_at
  rw [List.getD_eq_getElem?_getD, List.getElem?_eq_getElem h]
  rfl

theorem get_long_ok (bb : List Nat) (o : Nat) (h : o + 3 < bb.length) :
    get_long bb o = .ok (bb.getD o 0 ||| (bb.getD (o + 1) 0 <<< 8) |||
      (bb.getD (o + 2) 0 <<< 16) ||| (bb.getD (o + 3) 0 <<< 24)) := by
  unfold get_long
  rw [byte_at_lt bb o (by omega), byte_at_lt bb (o + 1) (by omega),
    byte_at_lt bb (o + 2) (by omega), byte_at_lt bb (o + 3) h]
  rfl

theorem get_int_ok (bb : List Nat) (o : Nat) (h : o + 1 < bb.length) :
    get_int bb o = .ok (toInt16 (Int.ofNat (bb.getD o 0 ||| (bb.getD (o + 1) 0 <<< 8)))) := by
  unfold get_int
  rw [byte_at_lt bb o (by omega), byte_at_lt bb (o + 1) h]
  rfl

theorem mode_ptr_of_get_mode (s : EV3UARTSensor) (m : Nat) (d : EV3UARTMode)
    (hm : m < MAX_MODES) (hd : s.mode_array.getD m none = some d) : mode_ptr s m = .ok d := by
  unfold mode_ptr
  rw [if_pos hm, hd]

/-- One round of the extraction loop for data type 3 (float). -/
theorem decode_sample_float (bb : List Nat) (mode j : Nat) (s0 : EV3UARTSensor)
    (d : EV3UARTMode) (hm : mode < MAX_MODES) (hd : s0.mode_array.getD mode none = some d)
    (htype : d.data_type = some 3) (hj : j * 4 + 3 < bb.length) :
    decode_sample bb mode j s0 = store_value s0 j
      (.ofBits (bb.getD (j * 4) 0 ||| (bb.getD (j * 4 + 1) 0 <<< 8) |||
        (bb.getD (j * 4 + 2) 0 <<< 16) ||| (bb.getD (j * 4 + 3) 0 <<< 24))) := by
  unfold decode_sample
  rw [mode_ptr_of_get_mode s0 mode d hm hd]
  simp only [bind, Except.bind, htype, get_float, get_long_ok bb (j * 4) hj, Run.lift, pure,
    Except.pure]

/-- One round of the extraction loop for data type 1 (16 bits). -/
theorem decode_sample_int (bb : List Nat) (mode j : Nat) (s0 : EV3UARTSensor)
    (d : EV3UARTMode) (hm : mode < MAX_MODES) (hd : s0.mode_array.getD mode none = some d)
    (htype : d.data_type = some 1) (hj : j * 2 + 1 < bb.length) :
    decode_sample bb mode j s0 = store_value s0 j
      (.ofInt (toInt16 (Int.ofNat (bb.getD (j * 2) 0 ||| (bb.getD (j * 2 + 1) 0 <<< 8))))) := by
  unfold decode_sample
  rw [mode_ptr_of_get_mode s0 mode d hm hd]
  simp only [bind, Except.bind, htype, get_int_ok bb (j * 2) hj, Run.lift]

/-- The loop of `fetch_sample` when the values and the caller's buffer are
large enough. -/
theorem fetch_loop_ok (value : List FloatVal) (offset : Nat) (k : Nat) :
    ∀ (i : Nat) (sample : List FloatVal), i + k ≤ MAX_DATA_ITEMS →
      value.length = MAX_DATA_ITEMS → offset + i + k ≤ sample.length →
      ∃ out, fetch_loop value offset k i sample = .ok out ∧ out.length = sample.length ∧
        (∀ j, i ≤ j → j < i + k → out[offset + j]? = value[j]?) ∧
        (∀ p, p < offset + i ∨ offset + i + k ≤ p → out[p]? = sample[p]?) := by
  induction k with
  | zero =>
    intro i sample _ _ _
    exact ⟨sample, rfl, rfl, fun j h1 h2 => by omega, fun p _ => rfl⟩
  | succ k ih =>
    intro i sample hik hlen hfit
    have hi : i < MAX_DATA_ITEMS := by omega
    have hv : value[i]? = some (value.getD i (.ofBits 0)) := by
      rw [List.getD_eq_getElem?_getD, List.getElem?_eq_getElem (by omega)]
      rfl
    obtain ⟨out, hrun, hlen', hin, hout⟩ := ih (i + 1)
      (sample.set (offset + i) (value.getD i (.ofBits 0))) (by omega) hlen
      (by rw [List.length_set]; omega)
    refine ⟨out, ?_, ?_, ?_, ?_⟩
    · unfold fetch_loop
      rw [if_pos hi, hv]
      simp only []
      rw [if_pos (by omega)]
      exact hrun
    · rw [hlen', List.length_set]
    · intro j h1 h2
      by_cases hj : j = i
      · subst hj
        rw [hout (offset + j) (Or.inl (by omega)), hv]
        exact List.getElem?_set_self (by omega)
      · exact hin j (by omega) (by omega)
    · intro p hp
      rw [hout p (by omega)]
      exact List.getElem?_set_ne (by omega)

/-- An accepted data frame in `DATA_MODE`: the counters are updated and the
extraction loop runs on the payload. -/
theorem check_for_data_accepted (s : EV3UARTSensor) (f : DataFrame) (tail : List Nat)
    (hstatus : s.status = DATA_MODE) (hwf : f.WellFormed) (hver : f.Verifies s.type)
    (hrx : s.ss.rx = f.bytes ++ tail) :
    check_for_data s =
      decode_loop f.payload (f.cmd &&& 7) s.num_samples.toNat 0
        { with_rx s tail with
            consecutive_errors := 0,
            recent_messages := toInt16 (s.recent_messages + 1) } := by
  obtain ⟨hcmd, hdata, hpayload, hsum, hlen⟩ := hwf
  have hrx1 : s.ss.rx = f.cmd :: (f.payload ++ f.sum :: tail) := by
    simpa [DataFrame.bytes] using hrx
  rw [check_for_data_data s f.cmd _ hstatus hcmd hdata hrx1,
    data_message_eq (with_rx s (f.payload ++ f.sum :: tail)) f.cmd f.sum f.payload tail
      hpayload hsum hlen (with_rx_rx _ _)]
  have hc : ((with_rx s (f.payload ++ f.sum :: tail)).type = 29 ∧ f.cmd &&& 7 = 4) ∨
      0xFF ^^^ f.cmd ^^^ xor_all f.payload = f.sum := by
    rcases hver with h | h
    · exact Or.inr h.symm
    · exact Or.inl h
  rw [if_pos hc]
  rfl

/-- C8: for an accepted data frame decoded with data type 3 (float), with `n`
samples that fit the buffer and the payload, sample `i < n` is the float whose
32-bit pattern is `b[4i] | b[4i+1] << 8 | b[4i+2] << 16 | b[4i+3] << 24` of the
payload `b`, and `fetch_sample` copies the samples into the caller's buffer
from the given offset on, leaving the rest of that buffer. -/
theorem float_frame_decoded (s : EV3UARTSensor) (f : DataFrame) (tail : List Nat)
    (d : EV3UARTMode) (n : Nat)
    (hstatus : s.status = DATA_MODE) (hwf : f.WellFormed) (hver : f.Verifies s.type)
    (hd : get_mode s (f.cmd &&& 7) = some d) (htype : d.data_type = some 3)
    (hn : sample_size s = n) (hn10 : n ≤ MAX_DATA_ITEMS) (hfit : 4 * n ≤ f.payload.length)
    (hval : s.value.length = MAX_DATA_ITEMS) (hrx : s.ss.rx = f.bytes ++ tail) :
    ∃ s', check_for_data s = .ok s' ∧
      (∀ i, i < n → s'.value[i]? = some (FloatVal.ofBits
        (f.payload.getD (i * 4) 0 ||| (f.payload.getD (i * 4 + 1) 0 <<< 8) |||
          (f.payload.getD (i * 4 + 2) 0 <<< 16) ||| (f.payload.getD (i * 4 + 3) 0 <<< 24)))) ∧
      (∀ (sample : List FloatVal) (offset : Nat), offset + n ≤ sample.length →
        ∃ out, fetch_sample s' sample offset = .ok out ∧ out.length = sample.length ∧
          (∀ i, i < n → out[offset + i]? = s'.value[i]?) ∧
          (∀ p, p < offset ∨ offset + n ≤ p → out[p]? = sample[p]?)) := by
  have hm : f.cmd &&& 7 < MAX_MODES := Nat.lt_of_le_of_lt Nat.and_le_right (by decide)
  have hnum : s.num_samples.toNat = n := by
    unfold sample_size at hn
    rw [hn]
    rfl
  rw [check_for_data_accepted s f tail hstatus hwf hver hrx, hnum]
  obtain ⟨s', hrun, hsame, hlen', hin, _⟩ := decode_loop_ok f.payload (f.cmd &&& 7)
    (fun j => FloatVal.ofBits
      (f.payload.getD (j * 4) 0 ||| (f.payload.getD (j * 4 + 1) 0 <<< 8) |||
        (f.payload.getD (j * 4 + 2) 0 <<< 16) ||| (f.payload.getD (j * 4 + 3) 0 <<< 24)))
    n 0
    { with_rx s tail with
        consecutive_errors := 0,
        recent_messages := toInt16 (s.recent_messages + 1) }
    (by omega) hval
    (fun j _ hj s0 h0 => decode_sample_float f.payload (f.cmd &&& 7) j s0 d hm
      (by rw [h0]; exact hd) htype (by omega))
  refine ⟨s', hrun, fun i hi => hin i (Nat.zero_le _) (by omega), ?_⟩
  intro sample offset hoff
  have hnum' : s'.num_samples.toNat = n := by
    unfold SameButValue at hsame
    rw [hsame]
    exact hnum
  obtain ⟨out, hf, hl, h1, h2⟩ := fetch_loop_ok s'.value offset n 0 sample (by omega) hlen'
    (by omega)
  refine ⟨out, ?_, hl, fun i hi => h1 i (Nat.zero_le _) (by omega), fun p hp => h2 p (by omega)⟩
  unfold fetch_sample
  rw [hnum']
  exact hf

/-- C8 at a concrete input: a one-float mode and the payload `00 00 80 3F`. The
stored pattern is `0x3F800000`, which stands for 1, and `fetch_sample` puts it
at the offset asked for. -/
theorem float_frame_decoded_witness :
    (∃ s', check_for_data (feed float_selected one_frame.bytes) = .ok s' ∧
      (∀ i, i < 1 → s'.value[i]? = some (FloatVal.ofBits
        (one_frame.payload.getD (i * 4) 0 ||| (one_frame.payload.getD (i * 4 + 1) 0 <<< 8) |||
          (one_frame.payload.getD (i * 4 + 2) 0 <<< 16) |||
          (one_frame.payload.getD (i * 4 + 3) 0 <<< 24)))) ∧
      (∀ (sample : List FloatVal) (offset : Nat), offset + 1 ≤ sample.length →
        ∃ out, fetch_sample s' sample offset = .ok out ∧ out.length = sample.length ∧
          (∀ i, i < 1 → out[offset + i]? = s'.value[i]?) ∧
          (∀ p, p < offset ∨ offset + 1 ≤ p → out[p]? = sample[p]?))) ∧
    (check_for_data (feed float_selected one_frame.bytes)).final.value[0]?
      = some (FloatVal.ofBits 0x3F800000) ∧
    ieee754_single 0x3F800000 = some 1 ∧
    fetch_sample (check_for_data (feed float_selected one_frame.bytes)).final
        [FloatVal.ofInt 7, FloatVal.ofInt 8, FloatVal.ofInt 9] 1
      = .ok [FloatVal.ofInt 7, FloatVal.ofBits 0x3F800000, FloatVal.ofInt 9] :=
  ⟨float_frame_decoded (feed float_selected one_frame.bytes) one_frame []
      { EV3UARTMode.new with
          sets := some 1, data_type := some 3, figures := some 5, decimals := some 1 }
      1 (by decide) (by decide) (by decide) (by decide) (by decide) (by decide) (by decide)
      (by decide) (by decide) (by decide),
   by decide, by norm_num [ieee754_single], by rfl⟩

/-- C9 fails on the code: for data type 2 the four payload bytes `FF FF FF FF`
are decoded through `get_long`, whose result is unsigned, so the sample is the
conversion of 4294967295 and not of the sign-extended value -1. -/
theorem long_frame_unsigned :
    minus_one_frame.WellFormed ∧ minus_one_frame.Verifies long_selected.type ∧
    (get_mode long_selected (minus_one_frame.cmd &&& 7)).map (·.data_type) = some (some 2) ∧
    sample_size long_selected = 1 ∧
    get_long minus_one_frame.payload 0 = .ok 4294967295 ∧
    ∃ s', check_for_data (feed long_selected minus_one_frame.bytes) = .ok s' ∧
      s'.value[0]? = some (FloatVal.ofInt 4294967295) ∧
      s'.value[0]? ≠ some (FloatVal.ofInt (-1)) :=
  ⟨by decide, by decide, by decide, by decide, rfl, _, rfl, by decide, by decide⟩

theorem or_shift8 (b0 b1 : Nat) (h0 : b0 < 256) : b0 ||| (b1 <<< 8) = b0 + 256 * b1 := by
  have h := @Nat.mul_add_lt_is_or 8 b0 h0 b1
  rw [Nat.shiftLeft_eq, Nat.or_comm, Nat.mul_comm b1, ← h]
  omega

theorem toInt16_ofNat (u : Nat) (hu : u < 65536) : toInt16 (Int.ofNat u) = signed16 u := by
  unfold toInt16 signed16
  simp only [Int.ofNat_eq_coe]
  split <;> omega

theorem getD_lt_256 (b : List Nat) (hb : ∀ x ∈ b, x < 256) (i : Nat) : b.getD i 0 < 256 := by
  rw [List.getD_eq_getElem?_getD]
  cases h : b[i]? with
  | none => simp
  | some x => exact hb x (List.getElem?_mem h)

theorem get_int_word (b : List Nat) (hb : ∀ x ∈ b, x < 256) (o : Nat) :
    toInt16 (Int.ofNat (b.getD o 0 ||| (b.getD (o + 1) 0 <<< 8)))
      = signed16 (b.getD o 0 + 256 * b.getD (o + 1) 0) := by
  have h0 := getD_lt_256 b hb o
  have h1 := getD_lt_256 b hb (o + 1)
  rw [or_shift8 _ _ h0]
  exact toInt16_ofNat _ (by omega)

/-- C10: for a byte array `b` and an offset `o` inside it, `get_int(b, o)` is
the 16-bit two's-complement value of the little-endian pair `b[o], b[o+1]`:
`b[o] + 256 * b[o+1]` brought into `-32768..32767` by subtracting 65536 when it
is 32768 or more. For an accepted data frame decoded with data type 1, sample
`i` is that value of the payload bytes `2i` and `2i+1`. -/
theorem get_int_sign_extended (b : List Nat) (hb : ∀ x ∈ b, x < 256) :
    (∀ o, o + 1 < b.length →
      get_int b o = .ok (signed16 (b.getD o 0 + 256 * b.getD (o + 1) 0)) ∧
      -32768 ≤ signed16 (b.getD o 0 + 256 * b.getD (o + 1) 0) ∧
      signed16 (b.getD o 0 + 256 * b.getD (o + 1) 0) ≤ 32767 ∧
      (signed16 (b.getD o 0 + 256 * b.getD (o + 1) 0) =
          ((b.getD o 0 + 256 * b.getD (o + 1) 0 : Nat) : Int) ∨
        signed16 (b.getD o 0 + 256 * b.getD (o + 1) 0) =
          ((b.getD o 0 + 256 * b.getD (o + 1) 0 : Nat) : Int) - 65536)) ∧
    (∀ (s : EV3UARTSensor) (f : DataFrame) (tail : List Nat) (d : EV3UARTMode) (n : Nat),
      f.payload = b → s.status = DATA_MODE → f.WellFormed → f.Verifies s.type →
      get_mode s (f.cmd &&& 7) = some d → d.data_type = some 1 →
      sample_size s = n → n ≤ MAX_DATA_ITEMS → 2 * n ≤ b.length →
      s.value.length = MAX_DATA_ITEMS → s.ss.rx = f.bytes ++ tail →
      ∃ s', check_for_data s = .ok s' ∧
        ∀ i, i < n → s'.value[i]? =
          some (FloatVal.ofInt (signed16 (b.getD (i * 2) 0 + 256 * b.getD (i * 2 + 1) 0)))) := by
  constructor
  · intro o ho
    have h0 := getD_lt_256 b hb o
    have h1 := getD_lt_256 b hb (o + 1)
    rw [get_int_ok b o ho, get_int_word b hb o]
    refine ⟨rfl, ?_, ?_, ?_⟩
    · unfold signed16
      split <;> omega
    · unfold signed16
      split <;> omega
    · unfold signed16
      split
      · exact Or.inl rfl
      · exact Or.inr rfl
  · intro s f tail d n hpay hstatus hwf hver hd htype hn hn10 hfit hval hrx
    subst hpay
    have hm : f.cmd &&& 7 < MAX_MODES := Nat.lt_of_le_of_lt Nat.and_le_right (by decide)
    have hnum : s.num_samples.toNat = n := by
      unfold sample_size at hn
      rw [hn]
      rfl
    rw [check_for_data_accepted s f tail hstatus hwf hver hrx, hnum]
    obtain ⟨s', hrun, _, _, hin, _⟩ := decode_loop_ok f.payload (f.cmd &&& 7)
      (fun j => FloatVal.ofInt
        (signed16 (f.payload.getD (j * 2) 0 + 256 * f.payload.getD (j * 2 + 1) 0)))
      n 0
      { with_rx s tail with
          consecutive_errors := 0,
          recent_messages := toInt16 (s.recent_messages + 1) }
      (by omega) hval
      (fun j _ hj s0 h0 => by
        rw [decode_sample_int f.payload (f.cmd &&& 7) j s0 d hm (by rw [h0]; exact hd) htype
          (by omega), get_int_word f.payload hb (j * 2)])
    exact ⟨s', hrun, fun i hi => hin i (Nat.zero_le _) (by omega)⟩

/-- C10 at a concrete input: the colour sensor in mode 4 (three 16-bit values)
receives `FF FF`, `00 80`, `34 12`: the samples are -1, -32768 and 0x1234. -/
theorem get_int_sign_extended_witness :
    (get_int rgb_frame.payload 0 = .ok (-1) ∧ get_int rgb_frame.payload 2 = .ok (-32768)) ∧
    (∃ s', check_for_data (feed color_rgb rgb_frame.bytes) = .ok s' ∧
      ∀ i, i < 3 → s'.value[i]? = some (FloatVal.ofInt (signed16
        (rgb_frame.payload.getD (i * 2) 0 + 256 * rgb_frame.payload.getD (i * 2 + 1) 0)))) ∧
    (check_for_data (feed color_rgb rgb_frame.bytes)).final.value.take 3
      = [FloatVal.ofInt (-1), FloatVal.ofInt (-32768), FloatVal.ofInt 0x1234] :=
  ⟨⟨((get_int_sign_extended rgb_frame.payload (by decide)).1 0 (by decide)).1,
      ((get_int_sign_extended rgb_frame.payload (by decide)).1 2 (by decide)).1⟩,
   (get_int_sign_extended rgb_frame.payload (by decide)).2 (feed color_rgb rgb_frame.bytes)
      rgb_frame [] { EV3UARTMode.new with
        sets := some 3, data_type := some 1, figures := some 4, decimals := some 0 }
      3 rfl (by decide) (by decide) (by decide) (by decide) (by decide) (by decide) (by decide)
      (by decide) (by decide) (by decide),
   by decide⟩

set_option maxRecDepth 100000 in
theorem lll_bits : ∀ cmd, cmd < 256 → (cmd &&& 0x38) >>> 3 = (cmd >>> 3) &&& 7 := by
  decide

theorem exp2_small : ∀ e, e < 8 →
    exp2 e = (if e ≤ 5 then 2 ^ e else 0) ∧ exp2 e ∈ [0, 1, 2, 4, 8, 16, 32] := by
  decide

theorem with_rx_self (s : EV3UARTSensor) : with_rx s s.ss.rx = s := rfl

/-- A call of `read_byte` takes one byte from the port or stops blocked, and
changes nothing else. -/
theorem read_byte_run (s : EV3UARTSensor) :
    (∃ b rx, read_byte s = .ok (b, with_rx s rx)) ∨ read_byte s = .error (.blocked, s) := by
  unfold read_byte
  cases s.ss.rx with
  | nil => exact Or.inr rfl
  | cons b rest => exact Or.inl ⟨_, _, rfl⟩

/-- The payload loop takes bytes from the port or stops blocked, and changes
nothing else. -/
theorem read_payload_run (n : Nat) : ∀ (c : Nat) (s : EV3UARTSensor),
    (∃ bs c' rx, read_payload n c s = .ok (bs, c', with_rx s rx)) ∨
    (∃ rx, read_payload n c s = .error (.blocked, with_rx s rx)) := by
  induction n with
  | zero => intro c s; exact Or.inl ⟨[], c, s.ss.rx, rfl⟩
  | succ n ih =>
    intro c s
    unfold read_payload
    rcases read_byte_run s with ⟨b, rx, hb⟩ | hb
    · rw [hb]
      simp only [bind, Except.bind]
      rcases ih (c ^^^ b) (with_rx s rx) with ⟨bs, c', rx', h⟩ | ⟨rx', h⟩
      · rw [h]
        exact Or.inl ⟨b :: bs, c', rx', rfl⟩
      · rw [h]
        exact Or.inr ⟨rx', rfl⟩
    · rw [hb]
      exact Or.inr ⟨s.ss.rx, rfl⟩

theorem same_modes_refl (s : EV3UARTSensor) : SameButModes s s := rfl

theorem put_mode_same (s : EV3UARTSensor) (m : Nat) (d : EV3UARTMode) :
    SameButModes s (put_mode s m d) := rfl

theorem same_modes_trans {a b c : EV3UARTSensor} (h1 : SameButModes a b)
    (h2 : SameButModes b c) : SameButModes a c := by
  unfold SameButModes at *
  rw [h2, h1]

/-- A step of `info_store`: a read of the payload, the dereference of the mode
pointer, then the rest `k` on the descriptor. -/
theorem info_step_same {α : Type} (s0 s : EV3UARTSensor) (x : Except Fault α) (m : Nat)
    (k : α → EV3UARTMode → Run EV3UARTSensor) (h0 : SameButModes s0 s)
    (hk : ∀ a d, SameButModes s0 (k a d).final) :
    SameButModes s0 (Run.lift s x >>= fun a => mode_ptr s m >>= fun d => k a d).final := by
  cases x with
  | error f => exact h0
  | ok a =>
    cases hp : mode_ptr s m with
    | error e =>
      obtain ⟨f, s'⟩ := e
      have hs' := mode_ptr_error s m f s' hp
      subst hs'
      simp only [Run.lift, bind, Except.bind, hp]
      exact h0
    | ok d =>
      simp only [Run.lift, bind, Except.bind, hp]
      exact hk a d

theorem lift_same {α : Type} (s0 s : EV3UARTSensor) (x : Except Fault α)
    (k : α → Run EV3UARTSensor) (h0 : SameButModes s0 s)
    (hk : ∀ a, SameButModes s0 (k a).final) :
    SameButModes s0 (Run.lift s x >>= k).final := by
  cases x with
  | error f => exact h0
  | ok a => exact hk a

/-- Whatever `info_store` does, it changes the mode catalog only. -/
theorem info_store_same (s : EV3UARTSensor) (type : Nat) (bb : List Nat) (l mode : Nat) :
    SameButModes s (info_store s type bb l mode).final := by
  unfold info_store
  split
  · exact info_step_same s s _ mode _ rfl (fun a d => put_mode_same s mode _)
  · exact lift_same s s _ _ rfl (fun low =>
      info_step_same s s _ mode _ rfl (fun a d => put_mode_same s mode _))
  · exact lift_same s s _ _ rfl (fun low =>
      info_step_same s s _ mode _ rfl (fun a d => put_mode_same s mode _))
  · exact lift_same s s _ _ rfl (fun low =>
      info_step_same s s _ mode _ rfl (fun a d => put_mode_same s mode _))
  · exact info_step_same s s _ mode _ rfl (fun a d => put_mode_same s mode _)
  · exact info_step_same s s _ mode _ rfl (fun b0 d0 =>
      info_step_same s _ _ mode _ (put_mode_same s mode _) (fun b1 d1 =>
        info_step_same s _ _ mode _
          (same_modes_trans (put_mode_same s mode _) (put_mode_same _ mode _)) (fun b2 d2 =>
            info_step_same s _ _ mode _
              (same_modes_trans (same_modes_trans (put_mode_same s mode _)
                (put_mode_same _ mode _)) (put_mode_same _ mode _)) (fun b3 d3 =>
                same_modes_trans (same_modes_trans (same_modes_trans
                  (put_mode_same s mode _) (put_mode_same _ mode _)) (put_mode_same _ mode _))
                  (put_mode_same _ mode _)))))
  · rfl

/-- A complete data frame in `DATA_MODE`: the call stops with exactly the bytes
after the frame left on the port. -/
theorem check_for_data_frame_rx (s : EV3UARTSensor) (cmd sum : Nat) (payload tail : List Nat)
    (hstatus : s.status = DATA_MODE) (hcmd : cmd < 256) (hdata : cmd &&& 0xC0 = 0xC0)
    (hpayload : ∀ b ∈ payload, b < 256) (hsum : sum < 256)
    (hlen : payload.length = exp2 ((cmd &&& 0x38) >>> 3))
    (hrx : s.ss.rx = cmd :: (payload ++ sum :: tail)) :
    (check_for_data s).final.ss.rx = tail := by
  rw [check_for_data_data s cmd _ hstatus hcmd hdata hrx,
    data_message_eq (with_rx s (payload ++ sum :: tail)) cmd sum payload tail hpayload hsum hlen
      (with_rx_rx _ _)]
  split
  · have hsame := decode_loop_same payload (cmd &&& 7)
      (with_rx s (payload ++ sum :: tail)).num_samples.toNat 0
      { with_rx (with_rx s (payload ++ sum :: tail)) tail with
          consecutive_errors := 0,
          recent_messages := toInt16 ((with_rx s (payload ++ sum :: tail)).recent_messages + 1) }
    unfold SameButValue at hsame
    rw [hsame]
    rfl
  · split <;> rfl

/-- C11: for a command byte `cmd` with `e = (cmd >> 3) & 7`, the length that
`check_for_data` computes is `2^e` when `e ≤ 5` and 0 when `e` is 6 or 7, one
of 0, 1, 2, 4, 8, 16, 32. For a data frame in `DATA_MODE` and for an `INFO`
frame while `STARTED`, a payload of exactly that length is read (the call
stops with the bytes after the frame left on the port), and the mode index
handed to the extraction loop and to `info_store` is `cmd & 7`. -/
theorem declared_length (cmd : Nat) (hcmd : cmd < 256) :
    (cmd &&& CMD_LLL_MASK) >>> CMD_LLL_SHIFT = (cmd >>> 3) &&& 7 ∧
    exp2 ((cmd >>> 3) &&& 7) = (if (cmd >>> 3) &&& 7 ≤ 5 then 2 ^ ((cmd >>> 3) &&& 7) else 0) ∧
    exp2 ((cmd >>> 3) &&& 7) ∈ [0, 1, 2, 4, 8, 16, 32] ∧
    (∀ (s : EV3UARTSensor) (payload : List Nat) (sum : Nat) (tail : List Nat),
      s.status = DATA_MODE → cmd &&& 0xC0 = 0xC0 → (∀ b ∈ payload, b < 256) → sum < 256 →
      payload.length = (if (cmd >>> 3) &&& 7 ≤ 5 then 2 ^ ((cmd >>> 3) &&& 7) else 0) →
      s.ss.rx = cmd :: (payload ++ sum :: tail) →
      (check_for_data s).final.ss.rx = tail ∧
      (sum = 0xFF ^^^ cmd ^^^ xor_all payload →
        check_for_data s = decode_loop payload (cmd &&& 7) s.num_samples.toNat 0
          { with_rx s tail with
              consecutive_errors := 0,
              recent_messages := toInt16 (s.recent_messages + 1) })) ∧
    (∀ (s : EV3UARTSensor) (type : Nat) (payload : List Nat) (sum : Nat) (tail : List Nat),
      s.status = STARTED → cmd &&& 0xC0 = 0x80 → type < 256 → (∀ b ∈ payload, b < 256) →
      sum < 256 →
      payload.length = (if (cmd >>> 3) &&& 7 ≤ 5 then 2 ^ ((cmd >>> 3) &&& 7) else 0) →
      s.ss.rx = cmd :: type :: (payload ++ sum :: tail) →
      (check_for_data s).final.ss.rx = tail ∧
      (sum = 0xFF ^^^ cmd ^^^ type ^^^ xor_all payload →
        check_for_data s = info_store (with_rx s tail) type payload
          (if (cmd >>> 3) &&& 7 ≤ 5 then 2 ^ ((cmd >>> 3) &&& 7) else 0) (cmd &&& 7))) := by
  have hbits := lll_bits cmd hcmd
  have he : (cmd >>> 3) &&& 7 < 8 := Nat.lt_of_le_of_lt Nat.and_le_right (by decide)
  have hexp := exp2_small _ he
  refine ⟨hbits, hexp.1, hexp.2, ?_, ?_⟩
  · intro s payload sum tail hstatus hdata hpayload hsum hlen hrx
    rw [← hexp.1, ← hbits] at hlen
    refine ⟨check_for_data_frame_rx s cmd sum payload tail hstatus hcmd hdata hpayload hsum hlen
      hrx, fun hs => ?_⟩
    have hwf : DataFrame.WellFormed ⟨cmd, payload, sum⟩ := ⟨hcmd, hdata, hpayload, hsum, hlen⟩
    exact check_for_data_accepted s ⟨cmd, payload, sum⟩ tail hstatus hwf (Or.inl hs)
      (by simpa [DataFrame.bytes] using hrx)
  · intro s type payload sum tail hstatus hinfo htype hpayload hsum hlen hrx
    have hlen' := hlen
    rw [← hexp.1, ← hbits] at hlen'
    have h1 : ¬ cmd = BYTE_ACK := by rintro rfl; revert hinfo; decide
    have h2 : ¬ cmd = CMD_TYPE := by rintro rfl; revert hinfo; decide
    have h3 : ¬ cmd = CMD_MODES := by rintro rfl; revert hinfo; decide
    have h4 : ¬ cmd = CMD_SPEED := by rintro rfl; revert hinfo; decide
    rw [check_for_data_started s cmd _ hstatus hcmd hrx, if_neg h1, if_neg h2, if_neg h3,
      if_neg h4, if_pos hinfo,
      info_message_eq _ cmd type sum payload tail htype hpayload hsum hlen' (with_rx_rx _ _),
      with_rx_with_rx, hbits, hexp.1]
    constructor
    · split
      · rfl
      · have hsame := info_store_same (with_rx s tail) type payload
          (if (cmd >>> 3) &&& 7 ≤ 5 then 2 ^ ((cmd >>> 3) &&& 7) else 0) (cmd &&& 7)
        unfold SameButModes at hsame
        rw [hsame]
        rfl
    · intro hs
      rw [if_neg (by rw [hs]; simp)]

/-- C11 at concrete inputs: the data command byte `0xDC` (`e = 3`, eight payload
bytes, mode 4) and the `INFO` command byte `0x91` (`e = 2`, four payload bytes,
mode 1). -/
theorem declared_length_witness :
    (exp2 ((0xDC >>> 3) &&& 7) = 8 ∧ 0xDC &&& 7 = 4 ∧
      (check_for_data (feed color_rgb rgb_frame.bytes)).final.ss.rx = []) ∧
    (exp2 ((0x91 >>> 3) &&& 7) = 4 ∧ 0x91 &&& 7 = 1 ∧
      (check_for_data info_pending).final.ss.rx = []) :=
  ⟨⟨by decide, by decide,
      ((declared_length 0xDC (by decide)).2.2.2.1 (feed color_rgb rgb_frame.bytes)
        rgb_frame.payload rgb_frame.sum [] (by decide) (by decide) (by decide) (by decide)
        (by decide) (by decide)).1⟩,
   ⟨by decide, by decide,
      ((declared_length 0x91 (by decide)).2.2.2.2 info_pending 0x80 [2, 3, 5, 1] 0xEB []
        (by decide) (by decide) (by decide) (by decide) (by decide) (by decide)
        (by decide)).1⟩⟩

theorem xor_all_append (a b : List Nat) : xor_all (a ++ b) = xor_all a ^^^ xor_all b := by
  induction a with
  | nil => simp [xor_all]
  | cons x xs ih =>
    have h1 : xor_all (x :: xs ++ b) = x ^^^ xor_all (xs ++ b) := rfl
    have h2 : xor_all (x :: xs) = x ^^^ xor_all xs := rfl
    rw [h1, h2, ih, Nat.xor_assoc]

/-- The log of the port after the loop of `send_write` on the first `n` bytes
of `rest`, all inside the array. -/
theorem send_write_loop_ok (bb : List Nat) (n : Nat) : ∀ (i c : Nat) (s : EV3UARTSensor)
    (done rest : List Nat), bb = done ++ rest → done.length = i → n ≤ rest.length →
    send_write_loop bb n i c s =
      .ok (c ^^^ xor_all (rest.take n),
        { s with ss := { s.ss with ops := s.ss.ops ++ (rest.take n).map SerialOp.putc } }) := by
  induction n with
  | zero =>
    intro i c s done rest _ _ _
    simp [send_write_loop, xor_all]
  | succ n ih =>
    intro i c s done rest hbb hi hn
    cases rest with
    | nil => simp at hn
    | cons b rest =>
      have hb : byte_at bb i = .ok b := by
        unfold byte_at
        rw [hbb, ← hi, List.getElem?_append_right (Nat.le_refl _)]
        simp
      unfold send_write_loop
      rw [hb]
      simp only [Run.lift, bind, Except.bind]
      rw [ih (i + 1) (c ^^^ b) _ (done ++ [b]) rest (by simp [hbb]) (by simp [hi])
        (by simpa using hn)]
      simp [xor_all, RawSerial.putc, Nat.xor_assoc]

/-- C12 fails on the code: `send_write` puts `len` itself, not its base-2
logarithm, into the length bits. For `len = 1` the command byte is `0x4C`,
whose length bits declare 2 bytes; for `len = 16` it is `0xC4`, which is not
even a `WRITE` command; none of the lengths 1, 2, 4, 8, 16, 32 is encoded
under the length rule. -/
theorem send_write_length_bits :
    (∃ s', send_write float_selected [5] 1 = .ok s' ∧
      s'.ss.written = float_selected.ss.written ++ [0x4C, 5, 0xB6] ∧
      2 ^ ((0x4C >>> 3) &&& 7) = 2) ∧
    (∃ s', send_write float_selected [1, 2, 3, 4, 5, 6, 7, 8, 9, 10, 11, 12, 13, 14, 15, 16] 16
        = .ok s' ∧ s'.ss.written.drop float_selected.ss.written.length
          = [0xC4, 1, 2, 3, 4, 5, 6, 7, 8, 9, 10, 11, 12, 13, 14, 15, 16, 0x2B] ∧
      0xC4 &&& 0xC7 ≠ 0x44) ∧
    (∀ len ∈ [1, 2, 4, 8, 16, 32],
      ¬ (2 ^ ((((CMD_WRITE ||| (len <<< CMD_LLL_SHIFT)) % 256) >>> 3) &&& 7) = len ∧
          ((CMD_WRITE ||| (len <<< CMD_LLL_SHIFT)) % 256) &&& 0xC7 = 0x44)) :=
  ⟨⟨_, rfl, by decide, by decide⟩, ⟨_, rfl, by decide, by decide⟩, by decide⟩

theorem xor_frame_zero (b : Nat) (bb : List Nat) :
    0xFF ^^^ xor_all (b :: bb ++ [0xFF ^^^ b ^^^ xor_all bb]) = 0 := by
  have h1 : xor_all (b :: bb ++ [0xFF ^^^ b ^^^ xor_all bb])
      = b ^^^ xor_all (bb ++ [0xFF ^^^ b ^^^ xor_all bb]) := rfl
  have h2 : xor_all [0xFF ^^^ b ^^^ xor_all bb] = 0xFF ^^^ b ^^^ xor_all bb := by
    simp [xor_all]
  rw [h1, xor_all_append, h2, ← Nat.xor_assoc, ← Nat.xor_assoc, Nat.xor_self]

/-- C13: the frames the driver emits carry a checksum that verifies.
`send_select(m)` writes exactly `0x43`, `m`, `c` with `c = 0xFF xor 0x43 xor m`;
`send_write(bb, len)` on a payload of `len` bytes writes the command byte `b`,
the payload bytes in order, then `c = 0xFF xor b xor` (xor of the payload); in
both cases the xor of `0xFF` with all bytes of the frame is 0, and nothing else
of the sensor changes. -/
theorem emitted_frames_verify (s : EV3UARTSensor) :
    (∀ m : Nat,
      send_select s m = after_putc s [0x43, m, 0xFF ^^^ 0x43 ^^^ m] ∧
      0xFF ^^^ xor_all [0x43, m, 0xFF ^^^ 0x43 ^^^ m] = 0) ∧
    (∀ bb : List Nat,
      send_write s bb bb.length = .ok (after_putc s
        ((CMD_WRITE ||| (bb.length <<< CMD_LLL_SHIFT)) % 256 :: bb ++
          [0xFF ^^^ (CMD_WRITE ||| (bb.length <<< CMD_LLL_SHIFT)) % 256 ^^^ xor_all bb])) ∧
      0xFF ^^^ xor_all ((CMD_WRITE ||| (bb.length <<< CMD_LLL_SHIFT)) % 256 :: bb ++
        [0xFF ^^^ (CMD_WRITE ||| (bb.length <<< CMD_LLL_SHIFT)) % 256 ^^^ xor_all bb]) = 0) := by
  constructor
  · intro m
    refine ⟨?_, ?_⟩
    · simp [send_select, RawSerial.putc, after_putc]
      decide
    · have h := xor_frame_zero 0x43 [m]
      simpa [xor_all] using h
  · intro bb
    refine ⟨?_, xor_frame_zero _ bb⟩
    unfold send_write
    simp only [bind, Except.bind]
    rw [send_write_loop_ok bb bb.length 0 _ _ [] bb rfl rfl (Nat.le_refl _)]
    simp [RawSerial.putc, List.take_length, after_putc]
    rfl

theorem quiet_refl (s : EV3UARTSensor) : Quiet s s := ⟨rfl, rfl, Or.inl rfl⟩

theorem quiet_with_rx (s : EV3UARTSensor) (rx : List Nat) : Quiet s (with_rx s rx) :=
  ⟨rfl, rfl, Or.inl rfl⟩

theorem quiet_of_with_rx {s s' : EV3UARTSensor} {rx : List Nat} (h : Quiet (with_rx s rx) s') :
    Quiet s s' := h

theorem quiet_of_same_modes {s s' : EV3UARTSensor} (h : SameButModes s s') : Quiet s s' := by
  unfold SameButModes at h
  rw [h]
  exact ⟨rfl, rfl, Or.inl rfl⟩

theorem type_message_quiet (s : EV3UARTSensor) (cmd : Nat) :
    Quiet s (type_message s cmd).final := by
  unfold type_message
  rcases read_byte_run s with ⟨b, rx, h⟩ | h
  · rw [h]
    simp only [bind, Except.bind]
    rcases read_byte_run (with_rx s rx) with ⟨b', rx', h'⟩ | h'
    · rw [h']
      simp only []
      split
      · exact ⟨rfl, rfl, Or.inr rfl⟩
      · exact ⟨rfl, rfl, Or.inl rfl⟩
    · rw [h']
      exact ⟨rfl, rfl, Or.inl rfl⟩
  · rw [h]
    exact quiet_refl s

theorem modes_message_quiet (s : EV3UARTSensor) (cmd : Nat) :
    Quiet s (modes_message s cmd).final := by
  unfold modes_message
  rcases read_byte_run s with ⟨b, rx, h⟩ | h
  · rw [h]
    simp only [bind, Except.bind]
    rcases read_byte_run (with_rx s rx) with ⟨b', rx', h'⟩ | h'
    · rw [h']
      simp only []
      rcases read_byte_run (with_rx (with_rx s rx) rx') with ⟨b'', rx'', h''⟩ | h''
      · rw [h'']
        simp only []
        split
        · exact ⟨rfl, rfl, Or.inl rfl⟩
        · exact ⟨rfl, rfl, Or.inl rfl⟩
      · rw [h'']
        exact ⟨rfl, rfl, Or.inl rfl⟩
    · rw [h']
      exact ⟨rfl, rfl, Or.inl rfl⟩
  · rw [h]
    exact quiet_refl s

theorem speed_message_quiet (s : EV3UARTSensor) (cmd : Nat) :
    Quiet s (speed_message s cmd).final := by
  unfold speed_message
  rcases read_payload_run 4 (0xff ^^^ cmd) s with ⟨bs, c, rx, h⟩ | ⟨rx, h⟩
  · simp only [bind, Except.bind, h]
    rcases read_byte_run (with_rx s rx) with ⟨b', rx', h'⟩ | h'
    · rw [h']
      simp only []
      split
      · cases get_long bs 0 with
        | ok v => exact ⟨rfl, rfl, Or.inl rfl⟩
        | error f => exact ⟨rfl, rfl, Or.inl rfl⟩
      · exact ⟨rfl, rfl, Or.inl rfl⟩
    · rw [h']
      exact ⟨rfl, rfl, Or.inl rfl⟩
  · simp only [bind, Except.bind, h]
    exact ⟨rfl, rfl, Or.inl rfl⟩

theorem info_message_quiet (s : EV3UARTSensor) (cmd : Nat) :
    Quiet s (info_message s cmd).final := by
  unfold info_message
  rcases read_byte_run s with ⟨b, rx, h⟩ | h
  · rw [h]
    simp only [bind, Except.bind]
    rcases read_payload_run (exp2 ((cmd &&& CMD_LLL_MASK) >>> CMD_LLL_SHIFT))
      (0xFF ^^^ cmd ^^^ b) (with_rx s rx) with ⟨bs, c, rx', h'⟩ | ⟨rx', h'⟩
    · rw [h']
      simp only []
      rcases read_byte_run (with_rx (with_rx s rx) rx') with ⟨b'', rx'', h''⟩ | h''
      · rw [h'']
        simp only []
        split
        · exact ⟨rfl, rfl, Or.inl rfl⟩
        · exact quiet_of_with_rx (quiet_of_with_rx (quiet_of_with_rx
            (quiet_of_same_modes (info_store_same _ _ _ _ _))))
      · rw [h'']
        exact ⟨rfl, rfl, Or.inl rfl⟩
    · rw [h']
      exact ⟨rfl, rfl, Or.inl rfl⟩
  · rw [h]
    exact quiet_refl s

/-- Outside `DATA_MODE`, any call of `check_for_data` that does not process a
`BYTE_ACK` while `STARTED` keeps the sample buffer and the port log, and leaves
the status as it was or sets it to `STARTED`. -/
theorem check_for_data_quiet (s : EV3UARTSensor) (hstatus : s.status ≠ DATA_MODE)
    (hack : ∀ c rest, s.ss.rx = c :: rest → s.status = STARTED → c % 256 ≠ BYTE_ACK) :
    Quiet s (check_for_data s).final := by
  unfold check_for_data
  cases hrx : s.ss.rx with
  | nil => exact quiet_refl s
  | cons c rest =>
    simp only []
    have h1 : ¬ (with_rx s rest).status = DATA_MODE := hstatus
    rw [if_neg h1]
    split
    · rename_i hor
      split
      · rename_i hc
        rcases hor with hs | hty
        · exact absurd hc (hack c rest hrx hs)
        · rw [hty] at hc
          exact absurd hc (by decide)
      · split
        · exact type_message_quiet _ _
        · split
          · exact modes_message_quiet _ _
          · split
            · exact speed_message_quiet _ _
            · split
              · exact info_message_quiet _ _
              · exact quiet_with_rx s rest
    · exact quiet_with_rx s rest

theorem after_putc_nil (s : EV3UARTSensor) : after_putc s [] = s := by
  simp [after_putc]

theorem after_putc_append (s : EV3UARTSensor) (a b : List Nat) :
    after_putc (after_putc s a) b = after_putc s (a ++ b) := by
  simp [after_putc]

/-- The loop of `send_write` writes bytes to the port and changes nothing else,
whether it finishes or stops at a read outside the array. -/
theorem send_write_loop_run (bb : List Nat) (n : Nat) : ∀ (i c : Nat) (s : EV3UARTSensor),
    ∃ bs, (∃ c', send_write_loop bb n i c s = .ok (c', after_putc s bs)) ∨
      (∃ f, send_write_loop bb n i c s = .error (f, after_putc s bs)) := by
  induction n with
  | zero =>
    intro i c s
    exact ⟨[], Or.inl ⟨c, by rw [after_putc_nil]; rfl⟩⟩
  | succ n ih =>
    intro i c s
    unfold send_write_loop
    cases byte_at bb i with
    | error f => exact ⟨[], Or.inr ⟨f, by rw [after_putc_nil]; rfl⟩⟩
    | ok b =>
      simp only [Run.lift, bind, Except.bind]
      obtain ⟨bs, h⟩ := ih (i + 1) (c ^^^ b) { s with ss := s.ss.putc b }
      have hs : ({ s with ss := s.ss.putc b } : EV3UARTSensor) = after_putc s [b] := rfl
      rw [hs, after_putc_append] at h
      rw [hs]
      exact ⟨[b] ++ bs, h⟩

/-- Whatever `send_write` does, it only writes bytes to the port. -/
theorem send_write_run (s : EV3UARTSensor) (bb : List Nat) (len : Nat) :
    ∃ bs, (send_write s bb len).final = after_putc s bs := by
  unfold send_write
  have hs : ({ s with ss := s.ss.putc ((CMD_WRITE ||| (len <<< CMD_LLL_SHIFT)) % 256) }
      : EV3UARTSensor) = after_putc s [(CMD_WRITE ||| (len <<< CMD_LLL_SHIFT)) % 256] := rfl
  obtain ⟨bs, h | h⟩ := send_write_loop_run bb len 0
    (0xFF ^^^ (CMD_WRITE ||| (len <<< CMD_LLL_SHIFT)) % 256)
    (after_putc s [(CMD_WRITE ||| (len <<< CMD_LLL_SHIFT)) % 256])
  · obtain ⟨c', h⟩ := h
    simp only [bind, Except.bind, hs, h]
    refine ⟨[(CMD_WRITE ||| (len <<< CMD_LLL_SHIFT)) % 256] ++ bs ++ [c'], ?_⟩
    rw [← after_putc_append, ← after_putc_append]
    rfl
  · obtain ⟨f, h⟩ := h
    simp only [bind, Except.bind, hs, h]
    exact ⟨[(CMD_WRITE ||| (len <<< CMD_LLL_SHIFT)) % 256] ++ bs, by
      rw [← after_putc_append]; rfl⟩

/-- Whatever `set_mode` does, it sends the select frame and changes the current
mode and the sample count only. -/
theorem set_mode_run (s : EV3UARTSensor) (m : Nat) :
    ∃ n, (set_mode s m).final =
      { send_select s (m % 256) with mode := m % 256, num_samples := n } := by
  unfold set_mode
  cases hp : mode_ptr { send_select s (m % 256) with mode := m % 256 } m with
  | error e =>
    obtain ⟨f, s'⟩ := e
    have hs' := mode_ptr_error _ _ _ _ hp
    subst hs'
    simp only [bind, Except.bind, hp]
    exact ⟨s.num_samples, rfl⟩
  | ok d =>
    simp only [bind, Except.bind, hp]
    cases d.sets with
    | none => exact ⟨s.num_samples, rfl⟩
    | some n => exact ⟨Int.ofNat n, rfl⟩

/-- C14: the only way into `DATA_MODE` is the `BYTE_ACK` of the handshake. If the
status is not `DATA_MODE` before a call of `check_for_data` and is `DATA_MODE`
when the call stops, then the status before was `STARTED` and the byte taken
from the port was `0x04`. `reset` leaves the status at `RESET`; `set_mode`,
`send_write` and `send_nack` do not change it. -/
theorem streaming_only_by_ack (s : EV3UARTSensor) :
    (s.status ≠ DATA_MODE → (check_for_data s).final.status = DATA_MODE →
      s.status = STARTED ∧ ∃ c rest, s.ss.rx = c :: rest ∧ c % 256 = BYTE_ACK) ∧
    ((reset s).status = RESET ∧ (reset s).status ≠ DATA_MODE) ∧
    (∀ m, (set_mode s m).final.status = s.status) ∧
    (∀ bb len, (send_write s bb len).final.status = s.status) ∧
    (send_nack s).status = s.status := by
  refine ⟨?_, ⟨rfl, (by decide : ¬ RESET = DATA_MODE)⟩, ?_, ?_, ?_⟩
  · intro hstatus hfinal
    by_contra hcon
    have hq := check_for_data_quiet s hstatus (by
      intro c rest hrx hs hc
      exact hcon ⟨hs, c, rest, hrx, hc⟩)
    rcases hq.2.2 with h | h
    · rw [h] at hfinal
      exact hstatus hfinal
    · rw [h] at hfinal
      revert hfinal
      decide
  · intro m
    obtain ⟨n, h⟩ := set_mode_run s m
    rw [h]
    rfl
  · intro bb len
    obtain ⟨bs, h⟩ := send_write_run s bb len
    rw [h]
    rfl
  · unfold send_nack
    split <;> rfl

/-- C14 at a concrete input: the colour sensor enters `DATA_MODE` from `STARTED`
on the byte `0x04`. -/
theorem streaming_only_by_ack_witness :
    (check_for_data color_started).final.status = DATA_MODE ∧
    (color_started.status = STARTED ∧
      ∃ c rest, color_started.ss.rx = c :: rest ∧ c % 256 = BYTE_ACK) :=
  ⟨by decide, (streaming_only_by_ack color_started).1 (by decide) (by decide)⟩

/-- The `CMD_TYPE` byte outside `DATA_MODE`. -/
theorem check_for_data_type (s : EV3UARTSensor) (rest : List Nat)
    (hstatus : s.status ≠ DATA_MODE) (hrx : s.ss.rx = CMD_TYPE :: rest) :
    check_for_data s = type_message (with_rx s rest) CMD_TYPE := by
  unfold check_for_data
  rw [hrx]
  have h1 : ¬ (with_rx s rest).status = DATA_MODE := hstatus
  have h2 : (with_rx s rest).status = STARTED ∨ CMD_TYPE % 256 = CMD_TYPE := Or.inr rfl
  simp only []
  rw [if_neg h1, if_pos h2, if_neg (by decide), if_pos (by decide)]
  rfl

/-- A byte other than `CMD_TYPE` while neither `STARTED` nor in `DATA_MODE`. -/
theorem check_for_data_ignored (s : EV3UARTSensor) (cmd : Nat) (rest : List Nat)
    (h1 : s.status ≠ DATA_MODE) (h2 : s.status ≠ STARTED) (hcmd : cmd < 256)
    (h3 : cmd ≠ CMD_TYPE) (hrx : s.ss.rx = cmd :: rest) :
    check_for_data s = .ok (with_rx s rest) := by
  unfold check_for_data
  rw [hrx]
  have h1' : ¬ (with_rx s rest).status = DATA_MODE := h1
  have h2' : ¬ ((with_rx s rest).status = STARTED ∨ cmd = CMD_TYPE) := by
    intro h
    rcases h with h | h
    · exact h2 h
    · exact h3 h
  simp only [Nat.mod_eq_of_lt hcmd]
  rw [if_neg h1', if_neg h2']
  rfl

/-- The `CMD_TYPE` branch on a complete frame. -/
theorem type_message_eq (s0 : EV3UARTSensor) (t c : Nat) (tail : List Nat)
    (ht : t < 256) (hc : c < 256) (hrx : s0.ss.rx = t :: c :: tail) :
    type_message s0 CMD_TYPE =
      if 0xFF ^^^ 0x40 ^^^ t = c then .ok { with_rx s0 tail with type := t, status := STARTED }
      else .ok (with_rx s0 tail) := by
  unfold type_message
  rw [read_byte_cons s0 t _ hrx]
  simp only [bind, Except.bind]
  rw [read_byte_cons _ c tail (with_rx_rx _ _)]
  simp only [Nat.mod_eq_of_lt ht, Nat.mod_eq_of_lt hc, with_rx_with_rx]
  rfl

/-- The `CMD_MODES` branch on a complete frame. -/
theorem modes_message_eq (s0 : EV3UARTSensor) (m v c : Nat) (tail : List Nat)
    (hm : m < 256) (hv : v < 256) (hc : c < 256) (hrx : s0.ss.rx = m :: v :: c :: tail) :
    modes_message s0 CMD_MODES =
      if 0xFF ^^^ 0x49 ^^^ m ^^^ v = c then
        .ok { with_rx s0 tail with
                views := v, modes := (m + 1) % 256,
                mode_array := alloc_modes m MAX_MODES 0 s0.mode_array }
      else .ok (with_rx s0 tail) := by
  unfold modes_message
  rw [read_byte_cons s0 m _ hrx]
  simp only [bind, Except.bind]
  rw [read_byte_cons _ v _ (with_rx_rx _ _)]
  simp only [with_rx_with_rx]
  rw [read_byte_cons _ c tail (with_rx_rx _ _)]
  simp only [Nat.mod_eq_of_lt hm, Nat.mod_eq_of_lt hv, Nat.mod_eq_of_lt hc, with_rx_with_rx]
  rfl

/-- The `CMD_SPEED` branch on a complete frame. -/
theorem speed_message_eq (s0 : EV3UARTSensor) (b0 b1 b2 b3 c : Nat) (tail : List Nat)
    (hb : ∀ b ∈ [b0, b1, b2, b3], b < 256) (hc : c < 256)
    (hrx : s0.ss.rx = b0 :: b1 :: b2 :: b3 :: c :: tail) :
    speed_message s0 CMD_SPEED =
      if 0xFF ^^^ 0x52 ^^^ xor_all [b0, b1, b2, b3] = c then
        .ok { with_rx s0 tail with
                speed := b0 ||| (b1 <<< 8) ||| (b2 <<< 16) ||| (b3 <<< 24) }
      else .ok (with_rx s0 tail) := by
  unfold speed_message
  simp only [bind, Except.bind]
  rw [read_payload_ok 4 [b0, b1, b2, b3] (c :: tail) _ s0 rfl hb (by simpa using hrx)]
  simp only []
  rw [read_byte_cons _ c tail (with_rx_rx _ _)]
  simp only [Nat.mod_eq_of_lt hc, with_rx_with_rx]
  split
  · rfl
  · rfl

/-- C15: outside `DATA_MODE`, a `TYPE`, `MODES`, `SPEED` or `INFO` frame whose
trailing byte differs from `0xFF xor` (all bytes before it) changes no state of
the engine. The frame is taken from the port and `check_for_data` returns the
sensor as it was: status, type, mode and view counts, speed, mode descriptors,
sample buffer, error counters and the log of the port are those of before.
(`MODES`, `SPEED` and `INFO` are frames only while `STARTED`; before that, a
byte other than `0x40` is taken alone and ignored.) -/
theorem bad_checksum_dropped (s : EV3UARTSensor) (hstatus : s.status ≠ DATA_MODE) :
    (∀ (t c : Nat) (tail : List Nat), t < 256 → c < 256 → c ≠ 0xFF ^^^ 0x40 ^^^ t →
      s.ss.rx = 0x40 :: t :: c :: tail → check_for_data s = .ok (with_rx s tail)) ∧
    (∀ (m v c : Nat) (tail : List Nat), s.status = STARTED → m < 256 → v < 256 → c < 256 →
      c ≠ 0xFF ^^^ 0x49 ^^^ m ^^^ v →
      s.ss.rx = 0x49 :: m :: v :: c :: tail → check_for_data s = .ok (with_rx s tail)) ∧
    (∀ (b0 b1 b2 b3 c : Nat) (tail : List Nat), s.status = STARTED →
      (∀ b ∈ [b0, b1, b2, b3], b < 256) → c < 256 →
      c ≠ 0xFF ^^^ 0x52 ^^^ xor_all [b0, b1, b2, b3] →
      s.ss.rx = 0x52 :: b0 :: b1 :: b2 :: b3 :: c :: tail →
      check_for_data s = .ok (with_rx s tail)) ∧
    (∀ (cmd type c : Nat) (payload tail : List Nat), s.status = STARTED → cmd < 256 →
      cmd &&& 0xC0 = 0x80 → type < 256 → (∀ b ∈ payload, b < 256) → c < 256 →
      payload.length = exp2 ((cmd &&& 0x38) >>> 3) →
      c ≠ 0xFF ^^^ cmd ^^^ type ^^^ xor_all payload →
      s.ss.rx = cmd :: type :: (payload ++ c :: tail) →
      check_for_data s = .ok (with_rx s tail)) ∧
    (∀ (cmd : Nat) (rest : List Nat), s.status ≠ STARTED → cmd < 256 → cmd ≠ 0x40 →
      s.ss.rx = cmd :: rest → check_for_data s = .ok (with_rx s rest)) := by
  refine ⟨?_, ?_, ?_, ?_, ?_⟩
  · intro t c tail ht hc hne hrx
    rw [check_for_data_type s _ hstatus hrx,
      type_message_eq _ t c tail ht hc (with_rx_rx _ _), if_neg (fun h => hne h.symm)]
    rfl
  · intro m v c tail hs hm hv hc hne hrx
    rw [check_for_data_started s 0x49 _ hs (by decide) hrx, if_neg (by decide),
      if_neg (by decide), if_pos (by decide),
      modes_message_eq _ m v c tail hm hv hc (with_rx_rx _ _), if_neg (fun h => hne h.symm)]
    rfl
  · intro b0 b1 b2 b3 c tail hs hb hc hne hrx
    rw [check_for_data_started s 0x52 _ hs (by decide) hrx, if_neg (by decide),
      if_neg (by decide), if_neg (by decide), if_pos (by decide),
      speed_message_eq _ b0 b1 b2 b3 c tail hb hc (with_rx_rx _ _),
      if_neg (fun h => hne h.symm)]
    rfl
  · intro cmd type c payload tail hs hcmd hinfo htype hpayload hc hlen hne hrx
    have h1 : ¬ cmd = BYTE_ACK := by rintro rfl; revert hinfo; decide
    have h2 : ¬ cmd = CMD_TYPE := by rintro rfl; revert hinfo; decide
    have h3 : ¬ cmd = CMD_MODES := by rintro rfl; revert hinfo; decide
    have h4 : ¬ cmd = CMD_SPEED := by rintro rfl; revert hinfo; decide
    rw [check_for_data_started s cmd _ hs hcmd hrx, if_neg h1, if_neg h2, if_neg h3,
      if_neg h4, if_pos hinfo,
      info_message_eq _ cmd type c payload tail htype hpayload hc hlen (with_rx_rx _ _),
      if_pos (fun h => hne h.symm)]
    rfl
  · intro cmd rest hs hcmd hne hrx
    exact check_for_data_ignored s cmd rest hstatus hs hcmd hne hrx

/-- C15 at concrete inputs: a `TYPE` frame with a wrong checksum before the
handshake, and `MODES`, `SPEED` and `INFO` frames with a wrong checksum
during it. -/
theorem bad_checksum_dropped_witness :
    check_for_data (begun [0x40, 29, 0x00]) = .ok (with_rx (begun [0x40, 29, 0x00]) []) ∧
    check_for_data (started_with [0x49, 2, 0, 0x00])
      = .ok (with_rx (started_with [0x49, 2, 0, 0x00]) []) ∧
    check_for_data (started_with [0x52, 0x00, 0xE1, 0x00, 0x00, 0x00])
      = .ok (with_rx (started_with [0x52, 0x00, 0xE1, 0x00, 0x00, 0x00]) []) ∧
    check_for_data (started_with [0x91, 0x80, 2, 3, 5, 1, 0x00])
      = .ok (with_rx (started_with [0x91, 0x80, 2, 3, 5, 1, 0x00]) []) ∧
    check_for_data (begun [0x49, 2, 0, 0xB4]) = .ok (with_rx (begun [0x49, 2, 0, 0xB4]) [2, 0, 0xB4]) :=
  ⟨(bad_checksum_dropped (begun [0x40, 29, 0x00]) (by decide)).1 29 0 [] (by decide)
      (by decide) (by decide) (by decide),
   (bad_checksum_dropped (started_with [0x49, 2, 0, 0x00]) (by decide)).2.1 2 0 0 []
      (by decide) (by decide) (by decide) (by decide) (by decide) (by decide),
   (bad_checksum_dropped (started_with [0x52, 0x00, 0xE1, 0x00, 0x00, 0x00]) (by decide)).2.2.1
      0x00 0xE1 0x00 0x00 0x00 [] (by decide) (by decide) (by decide) (by decide) (by decide),
   (bad_checksum_dropped (started_with [0x91, 0x80, 2, 3, 5, 1, 0x00]) (by decide)).2.2.2.1
      0x91 0x80 0x00 [2, 3, 5, 1] [] (by decide) (by decide) (by decide) (by decide)
      (by decide) (by decide) (by decide) (by decide) (by decide),
   (bad_checksum_dropped (begun [0x49, 2, 0, 0xB4]) (by decide)).2.2.2.2 0x49 [2, 0, 0xB4]
      (by decide) (by decide) (by decide) (by decide)⟩

/-- C16 fails on the code: `reset` leaves the ticker attached and `send_nack`
does not look at the status. After the handshake of the colour sensor and a
`reset`, and after the automatic reset at the eighth failing frame, the status
is `RESET`, the ticker is still attached, and its next tick writes `0x02`. -/
theorem heartbeat_after_reset :
    (color_streaming.heart = true ∧ (reset color_streaming).status = RESET ∧
      (reset color_streaming).heart = true ∧
      (heart_tick (reset color_streaming)).ss.written
        = (reset color_streaming).ss.written ++ [BYTE_NACK]) ∧
    (∃ s', poll 8 (feed color_streaming (wire (List.replicate 8 bad_frame))) = .ok s' ∧
      s'.status = RESET ∧ s'.heart = true ∧
      (heart_tick s').ss.written = s'.ss.written ++ [BYTE_NACK]) ∧
    (∀ s : EV3UARTSensor, (reset s).heart = s.heart ∧
      (s.heart = true → s.ss.canWrite = true →
        (heart_tick s).ss.written = s.ss.written ++ [BYTE_NACK])) :=
  ⟨⟨by decide, by decide, by decide, by decide⟩,
   ⟨_, rfl, by decide, by decide, by decide⟩,
   fun s => ⟨rfl, fun h1 h2 => by
     unfold heart_tick send_nack
     rw [if_pos h1, if_pos h2]
     exact written_putc _ _⟩⟩

/-- C17 fails on the code: a frame whose mode index has no descriptor is not
dropped. An accepted data frame with mode bits 1 sent to a sensor with the
single mode 0, and a checksum-valid format `INFO` for mode 3 sent to a sensor
that declared one mode, both make `check_for_data` dereference the missing
`mode_array` entry. -/
theorem missing_descriptor_dereferenced :
    (float_streaming.status = DATA_MODE ∧ get_number_of_modes float_streaming = 1 ∧
      get_mode float_streaming (stray_frame.cmd &&& 7) = none ∧
      stray_frame.WellFormed ∧ stray_frame.Verifies float_streaming.type ∧
      ∃ s', check_for_data (feed float_streaming stray_frame.bytes)
        = .error (Fault.noDescriptor 1, s')) ∧
    (stray_info.status = STARTED ∧ get_number_of_modes stray_info = 1 ∧
      get_mode stray_info 3 = none ∧
      stray_info.ss.rx = [0x93, 0x80, 1, 0, 3, 0, 0xFF ^^^ 0x93 ^^^ 0x80 ^^^ xor_all [1, 0, 3, 0]] ∧
      ∃ s', check_for_data stray_info = .error (Fault.noDescriptor 3, s')) :=
  ⟨⟨by decide, by decide, by decide, by decide, by decide, _, rfl⟩,
   ⟨by decide, by decide, by decide, by decide, _, rfl⟩⟩

/-- One round of the extraction loop for data type 0 (8 bits). -/
theorem decode_sample_byte (bb : List Nat) (mode j : Nat) (s0 : EV3UARTSensor)
    (d : EV3UARTMode) (hm : mode < MAX_MODES) (hd : s0.mode_array.getD mode none = some d)
    (htype : d.data_type = some 0) (hj : j < bb.length) :
    decode_sample bb mode j s0 = store_value s0 j (.ofInt (Int.ofNat (bb.getD j 0))) := by
  unfold decode_sample
  rw [mode_ptr_of_get_mode s0 mode d hm hd]
  simp only [bind, Except.bind, htype, byte_at_lt bb j hj, Run.lift]

/-- C18 (amended): an accepted data frame is decoded with the data type of the
descriptor that the mode bits of the frame (`cmd & 7`) address, and with the
sample count `sample_size()` that `set_mode` last stored; the current mode is
not looked at. For the data types 0, 1 and 3 and `n = sample_size()` samples
that fit the buffer and the payload, samples `0..n-1` are the decoded payload
values, the other samples are unchanged, and so are the current mode and the
sample count. -/
theorem frame_mode_decides_decoding (s : EV3UARTSensor) (f : DataFrame) (tail : List Nat)
    (d : EV3UARTMode) (t n : Nat)
    (hstatus : s.status = DATA_MODE) (hwf : f.WellFormed) (hver : f.Verifies s.type)
    (hd : get_mode s (f.cmd &&& 7) = some d) (htype : d.data_type = some t)
    (ht : t = 0 ∨ t = 1 ∨ t = 3)
    (hn : sample_size s = n) (hn10 : n ≤ MAX_DATA_ITEMS)
    (hfit : sample_width t * n ≤ f.payload.length)
    (hval : s.value.length = MAX_DATA_ITEMS) (hrx : s.ss.rx = f.bytes ++ tail) :
    ∃ s', check_for_data s = .ok s' ∧
      (∀ i, i < n → s'.value[i]? = some (decoded_sample t f.payload i)) ∧
      (∀ i, n ≤ i → s'.value[i]? = s.value[i]?) ∧
      get_current_mode s' = get_current_mode s ∧ sample_size s' = sample_size s := by
  have hm : f.cmd &&& 7 < MAX_MODES := Nat.lt_of_le_of_lt Nat.and_le_right (by decide)
  have hb : ∀ x ∈ f.payload, x < 256 := hwf.2.2.1
  have hnum : s.num_samples.toNat = n := by
    unfold sample_size at hn
    rw [hn]
    rfl
  rw [check_for_data_accepted s f tail hstatus hwf hver hrx, hnum]
  have hround : ∀ j, 0 ≤ j → j < 0 + n → ∀ s0 : EV3UARTSensor,
      s0.mode_array = s.mode_array →
      decode_sample f.payload (f.cmd &&& 7) j s0
        = store_value s0 j (decoded_sample t f.payload j) := by
    intro j _ hj s0 h0
    have hd0 : s0.mode_array.getD (f.cmd &&& 7) none = some d := by rw [h0]; exact hd
    rcases ht with h | h | h
    · subst h
      have hw : sample_width 0 = 1 := rfl
      rw [hw] at hfit
      rw [decode_sample_byte f.payload _ j s0 d hm hd0 htype (by omega)]
      rfl
    · subst h
      have hw : sample_width 1 = 2 := rfl
      rw [hw] at hfit
      rw [decode_sample_int f.payload _ j s0 d hm hd0 htype (by omega),
        get_int_word f.payload hb (j * 2)]
      rfl
    · subst h
      have hw : sample_width 3 = 4 := rfl
      rw [hw] at hfit
      rw [decode_sample_float f.payload _ j s0 d hm hd0 htype (by omega)]
      rfl
  obtain ⟨s', hrun, hsame, _, hin, hout⟩ := decode_loop_ok f.payload (f.cmd &&& 7)
    (fun j => decoded_sample t f.payload j) n 0
    { with_rx s tail with
        consecutive_errors := 0,
        recent_messages := toInt16 (s.recent_messages + 1) }
    (by omega) hval hround
  refine ⟨s', hrun, fun i hi => hin i (Nat.zero_le _) (by omega),
    fun i hi => hout i (Or.inr (by omega)), ?_, ?_⟩
  · unfold SameButValue at hsame
    rw [hsame]
    rfl
  · unfold SameButValue at hsame
    rw [hsame]
    rfl

/-- C18 at a concrete input: the colour sensor with mode 4 selected (three
samples) receives a frame that carries the mode bits 0, whose descriptor has
data type 0: the three samples are the first three payload bytes. -/
theorem frame_mode_decides_decoding_witness :
    ∃ s', check_for_data (feed color_rgb mode0_frame.bytes) = .ok s' ∧
      (∀ i, i < 3 → s'.value[i]? = some (decoded_sample 0 mode0_frame.payload i)) ∧
      (∀ i, 3 ≤ i → s'.value[i]? = (feed color_rgb mode0_frame.bytes).value[i]?) ∧
      get_current_mode s' = get_current_mode (feed color_rgb mode0_frame.bytes) ∧
      sample_size s' = sample_size (feed color_rgb mode0_frame.bytes) :=
  frame_mode_decides_decoding (feed color_rgb mode0_frame.bytes) mode0_frame []
    { EV3UARTMode.new with
        sets := some 1, data_type := some 0, figures := some 3, decimals := some 0 }
    0 3 (by decide) (by decide) (by decide) (by decide) (by decide) (by decide) (by decide)
    (by decide) (by decide) (by decide) (by decide)

/-- C18 as stated fails: with mode 4 selected on the colour sensor (descriptor 4:
16-bit values, three per sample), a frame that carries the mode bits 0 is
decoded as bytes, the data type of descriptor 0, not as the 16-bit values of
the current mode. -/
theorem decoding_ignores_current_mode :
    get_current_mode color_rgb = 4 ∧
    (get_mode color_rgb 4).map (·.data_type) = some (some 1) ∧
    (get_mode color_rgb 0).map (·.data_type) = some (some 0) ∧
    mode0_frame.WellFormed ∧ mode0_frame.Verifies color_rgb.type ∧
    ∃ s', check_for_data (feed color_rgb mode0_frame.bytes) = .ok s' ∧
      s'.value.take 3 = [FloatVal.ofInt 1, FloatVal.ofInt 2, FloatVal.ofInt 3] ∧
      s'.value[0]? ≠ some (decoded_sample 1 mode0_frame.payload 0) :=
  ⟨by decide, by decide, by decide, by decide, by decide, _, rfl, by decide, by decide⟩

/-- The data branch changes the sample buffer only after it has accepted the
frame. -/
theorem data_message_value (s : EV3UARTSensor) (cmd : Nat) :
    (data_message s cmd).final.value = s.value ∨
    ((data_message s cmd).final.consecutive_errors = 0 ∧
      (data_message s cmd).final.recent_messages = toInt16 (s.recent_messages + 1)) := by
  unfold data_message
  rcases read_payload_run (exp2 ((cmd &&& CMD_LLL_MASK) >>> CMD_LLL_SHIFT)) (0xff ^^^ cmd) s
    with ⟨bs, c, rx, h⟩ | ⟨rx, h⟩
  · simp only [bind, Except.bind, h]
    rcases read_byte_run (with_rx s rx) with ⟨b', rx', h'⟩ | h'
    · rw [h']
      simp only []
      split
      · right
        have hsame := decode_loop_same bs (cmd &&& 7)
          (with_rx (with_rx s rx) rx').num_samples.toNat 0
          { with_rx (with_rx s rx) rx' with
              consecutive_errors := 0,
              recent_messages := toInt16 ((with_rx (with_rx s rx) rx').recent_messages + 1) }
        unfold SameButValue at hsame
        rw [hsame]
        exact ⟨rfl, rfl⟩
      · left
        split <;> rfl
    · rw [h']
      exact Or.inl rfl
  · simp only [bind, Except.bind, h]
    exact Or.inl rfl

/-- C19: the sample buffer changes only when a data frame is accepted. Whenever
`value` differs after a call of `check_for_data`, the status was `DATA_MODE`
and the call accepted a frame (it cleared `consecutive_errors` and incremented
`recent_messages`). In particular `value` is unchanged by a data frame that
fails verification, by a byte that is no data command, by any call outside
`DATA_MODE`, and by `reset`, `set_mode`, `send_write` and `send_nack`. -/
theorem value_changes_only_on_accept (s : EV3UARTSensor) :
    ((check_for_data s).final.value = s.value ∨
      (s.status = DATA_MODE ∧ (check_for_data s).final.consecutive_errors = 0 ∧
        (check_for_data s).final.recent_messages = toInt16 (s.recent_messages + 1))) ∧
    (∀ (f : DataFrame) (tail : List Nat), s.status = DATA_MODE → f.WellFormed →
      f.Fails s.type → s.ss.rx = f.bytes ++ tail → (check_for_data s).final.value = s.value) ∧
    (∀ (c : Nat) (rest : List Nat), s.status = DATA_MODE → s.ss.rx = c :: rest →
      (c % 256) &&& 0xC0 ≠ 0xC0 → (check_for_data s).final.value = s.value) ∧
    (s.status ≠ DATA_MODE → (check_for_data s).final.value = s.value) ∧
    (reset s).value = s.value ∧
    (∀ m, (set_mode s m).final.value = s.value) ∧
    (∀ bb len, (send_write s bb len).final.value = s.value) ∧
    (send_nack s).value = s.value := by
  have hout : s.status ≠ DATA_MODE → (check_for_data s).final.value = s.value := by
    intro hstatus
    by_cases hack : ∃ c rest, s.ss.rx = c :: rest ∧ s.status = STARTED ∧ c % 256 = BYTE_ACK
    · obtain ⟨c, rest, hrx, hs, hc⟩ := hack
      unfold check_for_data
      rw [hrx]
      have h1 : ¬ (with_rx s rest).status = DATA_MODE := hstatus
      have h2 : (with_rx s rest).status = STARTED ∨ c % 256 = CMD_TYPE := Or.inl hs
      simp only []
      rw [if_neg h1, if_pos h2, if_pos hc]
      rfl
    · exact (check_for_data_quiet s hstatus (fun c rest hrx hs hc =>
        hack ⟨c, rest, hrx, hs, hc⟩)).1
  refine ⟨?_, ?_, ?_, hout, rfl, ?_, ?_, ?_⟩
  · by_cases hstatus : s.status = DATA_MODE
    · unfold check_for_data
      cases hrx : s.ss.rx with
      | nil => exact Or.inl rfl
      | cons c rest =>
        simp only []
        have h1 : (with_rx s rest).status = DATA_MODE := hstatus
        rw [if_pos h1]
        split
        · rcases data_message_value (with_rx s rest) (c % 256) with h | h
          · exact Or.inl h
          · exact Or.inr ⟨hstatus, h⟩
        · exact Or.inl rfl
    · exact Or.inl (hout hstatus)
  · intro f tail hstatus hwf hfail hrx
    rw [check_for_data_failing s f tail hstatus hwf hfail hrx]
    split <;> rfl
  · intro c rest hstatus hrx hc
    unfold check_for_data
    rw [hrx]
    have h1 : (with_rx s rest).status = DATA_MODE := hstatus
    simp only []
    rw [if_pos h1, if_neg hc]
    rfl
  · intro m
    obtain ⟨n, h⟩ := set_mode_run s m
    rw [h]
    rfl
  · intro bb len
    obtain ⟨bs, h⟩ := send_write_run s bb len
    rw [h]
    rfl
  · unfold send_nack
    split <;> rfl

/-- C19 at concrete inputs: a failing frame and a stray byte sent to the colour
sensor in `DATA_MODE`, and a byte received during its handshake. -/
theorem value_changes_only_on_accept_witness :
    (check_for_data (feed color_streaming bad_frame.bytes)).final.value
      = (feed color_streaming bad_frame.bytes).value ∧
    (check_for_data (feed color_streaming [0x55])).final.value
      = (feed color_streaming [0x55]).value ∧
    (check_for_data color_started).final.value = color_started.value :=
  ⟨(value_changes_only_on_accept (feed color_streaming bad_frame.bytes)).2.1 bad_frame []
      (by decide) (by decide) (by decide) (by decide),
   (value_changes_only_on_accept (feed color_streaming [0x55])).2.2.1 0x55 [] (by decide)
      (by decide) (by decide),
   (value_changes_only_on_accept color_started).2.2.2.1 (by decide)⟩

/-- C20: on the byte `0x04` while `STARTED`, with negotiated speed `s.speed`,
`check_for_data` discards every byte waiting on the port, writes `0x04`, sets
the bit rate to `s.speed`, then writes `0x02` (these three actions on the port,
in this order, and no other), and returns with status `DATA_MODE`,
`data_errors`, `consecutive_errors` and `recent_messages` at 0 and the ticker
attached. -/
theorem ack_enters_streaming (s : EV3UARTSensor) (rest : List Nat)
    (hstatus : s.status = STARTED) (hrx : s.ss.rx = BYTE_ACK :: rest) :
    ∃ s', check_for_data s = .ok s' ∧
      s'.ss.rx = [] ∧
      s'.ss.ops = s.ss.ops ++
        [SerialOp.putc BYTE_ACK, SerialOp.baud s.speed, SerialOp.putc BYTE_NACK] ∧
      s'.ss.written = s.ss.written ++ [0x04, 0x02] ∧
      s'.ss.rate = s.speed ∧
      get_status s' = DATA_MODE ∧ s'.data_errors = 0 ∧ s'.consecutive_errors = 0 ∧
      s'.recent_messages = 0 ∧ s'.heart = true := by
  refine ⟨_, check_for_data_ack s rest hstatus hrx, rfl, ?_, ?_, rfl, rfl, rfl, rfl, rfl, rfl⟩
  · simp [ack_message, RawSerial.putc, RawSerial.baud, with_rx]
  · simp [ack_message, RawSerial.putc, RawSerial.baud, with_rx, RawSerial.written,
      List.filterMap_append]

/-- C20 at a concrete input: the `ACK` that ends the handshake of the colour
sensor, whose `SPEED` frame asked for 57600, with two more bytes waiting. -/
theorem ack_enters_streaming_witness :
    (feed color_started [0x11, 0x22]).speed = 57600 ∧
    (feed color_started [0x11, 0x22]).ss.rx = [0x04, 0x11, 0x22] ∧
    ∃ s', check_for_data (feed color_started [0x11, 0x22]) = .ok s' ∧
      s'.ss.rx = [] ∧
      s'.ss.ops = (feed color_started [0x11, 0x22]).ss.ops ++
        [SerialOp.putc BYTE_ACK, SerialOp.baud (feed color_started [0x11, 0x22]).speed,
          SerialOp.putc BYTE_NACK] ∧
      s'.ss.written = (feed color_started [0x11, 0x22]).ss.written ++ [0x04, 0x02] ∧
      s'.ss.rate = (feed color_started [0x11, 0x22]).speed ∧
      get_status s' = DATA_MODE ∧ s'.data_errors = 0 ∧ s'.consecutive_errors = 0 ∧
      s'.recent_messages = 0 ∧ s'.heart = true :=
  ⟨by decide, by decide,
   ack_enters_streaming (feed color_started [0x11, 0x22]) [0x11, 0x22] (by decide) (by decide)⟩

theorem or_shift32 (b0 b1 b2 b3 : Nat) (h0 : b0 < 256) (h1 : b1 < 256) (h2 : b2 < 256) :
    b0 ||| (b1 <<< 8) ||| (b2 <<< 16) ||| (b3 <<< 24)
      = b0 + 2 ^ 8 * b1 + 2 ^ 16 * b2 + 2 ^ 24 * b3 := by
  have e1 : b0 ||| (b1 <<< 8) = b0 + 256 * b1 := or_shift8 b0 b1 h0
  have l1 : b0 + 256 * b1 < 2 ^ 16 := by omega
  have e2 : (b0 + 256 * b1) ||| (b2 <<< 16) = b0 + 256 * b1 + 2 ^ 16 * b2 := by
    have h := @Nat.mul_add_lt_is_or 16 (b0 + 256 * b1) l1 b2
    rw [Nat.shiftLeft_eq, Nat.or_comm, Nat.mul_comm b2, ← h]
    omega
  have l2 : b0 + 256 * b1 + 2 ^ 16 * b2 < 2 ^ 24 := by omega
  have e3 : (b0 + 256 * b1 + 2 ^ 16 * b2) ||| (b3 <<< 24)
      = b0 + 256 * b1 + 2 ^ 16 * b2 + 2 ^ 24 * b3 := by
    have h := @Nat.mul_add_lt_is_or 24 (b0 + 256 * b1 + 2 ^ 16 * b2) l2 b3
    rw [Nat.shiftLeft_eq, Nat.or_comm, Nat.mul_comm b3, ← h]
    omega
  rw [e1, e2, e3]
  omega

/-- C21: while `STARTED`, a `SPEED` frame `0x52, b0, b1, b2, b3, checksum` with a
matching checksum sets `get_speed()` to `b0 + 2^8 b1 + 2^16 b2 + 2^24 b3`; the
status stays `STARTED`, and the port is not touched: its bit rate and its log
(no write, no bit-rate change) are those of before. -/
theorem speed_frame (s : EV3UARTSensor) (b0 b1 b2 b3 : Nat) (tail : List Nat)
    (hstatus : s.status = STARTED) (hb : ∀ b ∈ [b0, b1, b2, b3], b < 256)
    (hrx : s.ss.rx = 0x52 :: b0 :: b1 :: b2 :: b3 ::
      (0xFF ^^^ 0x52 ^^^ xor_all [b0, b1, b2, b3]) :: tail) :
    ∃ s', check_for_data s = .ok s' ∧
      get_speed s' = b0 + 2 ^ 8 * b1 + 2 ^ 16 * b2 + 2 ^ 24 * b3 ∧
      get_status s' = STARTED ∧ s'.ss.rate = s.ss.rate ∧ s'.ss.ops = s.ss.ops ∧
      s'.ss.rx = tail := by
  have hsum : 0xFF ^^^ 0x52 ^^^ xor_all [b0, b1, b2, b3] < 256 :=
    xor_lt_256 _ _ (by decide) (xor_all_lt _ hb)
  have h0 : b0 < 256 := hb b0 (by simp)
  have h1 : b1 < 256 := hb b1 (by simp)
  have h2 : b2 < 256 := hb b2 (by simp)
  rw [check_for_data_started s 0x52 _ hstatus (by decide) hrx, if_neg (by decide),
    if_neg (by decide), if_neg (by decide), if_pos (by decide),
    speed_message_eq _ b0 b1 b2 b3 _ tail hb hsum (with_rx_rx _ _), if_pos rfl]
  exact ⟨_, rfl, or_shift32 b0 b1 b2 b3 h0 h1 h2, hstatus, rfl, rfl, rfl⟩

/-- C21 at a concrete input: the `SPEED` frame `52 00 E1 00 00 4C` (57600) sent
during the handshake. -/
theorem speed_frame_witness :
    ∃ s', check_for_data (started_with [0x52, 0x00, 0xE1, 0x00, 0x00, 0x4C]) = .ok s' ∧
      get_speed s' = 0x00 + 2 ^ 8 * 0xE1 + 2 ^ 16 * 0x00 + 2 ^ 24 * 0x00 ∧
      get_status s' = STARTED ∧
      s'.ss.rate = (started_with [0x52, 0x00, 0xE1, 0x00, 0x00, 0x4C]).ss.rate ∧
      s'.ss.ops = (started_with [0x52, 0x00, 0xE1, 0x00, 0x00, 0x4C]).ss.ops ∧
      s'.ss.rx = [] :=
  speed_frame (started_with [0x52, 0x00, 0xE1, 0x00, 0x00, 0x4C]) 0x00 0xE1 0x00 0x00 []
    (by decide) (by decide) (by decide)

/-- C22: while the status is `RESET`, `check_for_data` ignores every byte other
than `0x40`: it takes that one byte from the port and returns the sensor
otherwise as it was (no state changed, nothing written). On the byte `0x40`, in
`RESET` or `STARTED`, it takes exactly two more bytes `t` and `c`; when
`c = 0xFF xor 0x40 xor t` it stores `t` as the type and sets the status to
`STARTED`, changing nothing else; otherwise nothing changes. -/
theorem type_frame (s : EV3UARTSensor) :
    (∀ (cmd : Nat) (rest : List Nat), s.status = RESET → cmd < 256 → cmd ≠ 0x40 →
      s.ss.rx = cmd :: rest → check_for_data s = .ok (with_rx s rest)) ∧
    (∀ (t c : Nat) (tail : List Nat), s.status = RESET ∨ s.status = STARTED →
      t < 256 → c < 256 → s.ss.rx = 0x40 :: t :: c :: tail →
      ∃ s', check_for_data s = .ok s' ∧ s'.ss.rx = tail ∧
        (c = 0xFF ^^^ 0x40 ^^^ t →
          get_type s' = t ∧ get_status s' = STARTED ∧
          s' = { with_rx s tail with type := t, status := STARTED }) ∧
        (c ≠ 0xFF ^^^ 0x40 ^^^ t →
          get_type s' = get_type s ∧ get_status s' = get_status s ∧ s' = with_rx s tail)) := by
  constructor
  · intro cmd rest hs hcmd hne hrx
    exact check_for_data_ignored s cmd rest (by rw [hs]; decide) (by rw [hs]; decide) hcmd hne
      hrx
  · intro t c tail hs ht hc hrx
    have hstatus : s.status ≠ DATA_MODE := by
      rcases hs with h | h <;> rw [h] <;> decide
    rw [check_for_data_type s _ hstatus hrx, type_message_eq _ t c tail ht hc (with_rx_rx _ _)]
    by_cases hcs : 0xFF ^^^ 0x40 ^^^ t = c
    · rw [if_pos hcs]
      exact ⟨_, rfl, rfl, fun _ => ⟨rfl, rfl, rfl⟩, fun h => absurd hcs.symm h⟩
    · rw [if_neg hcs]
      exact ⟨_, rfl, rfl, fun h => absurd h.symm hcs, fun _ => ⟨rfl, rfl, rfl⟩⟩

/-- C22 at concrete inputs: a stray byte and the `TYPE` frame `40 1D A2` before
the handshake, and a `TYPE` frame with a wrong checksum during it. -/
theorem type_frame_witness :
    check_for_data (begun [0x04, 0x40, 29, 0xA2])
      = .ok (with_rx (begun [0x04, 0x40, 29, 0xA2]) [0x40, 29, 0xA2]) ∧
    (∃ s', check_for_data (begun [0x40, 29, 0xA2, 0x49]) = .ok s' ∧ s'.ss.rx = [0x49] ∧
      get_type s' = 29 ∧ get_status s' = STARTED) ∧
    (∃ s', check_for_data (started_with [0x40, 29, 0x00]) = .ok s' ∧ s'.ss.rx = [] ∧
      get_type s' = 33 ∧ get_status s' = STARTED) :=
  ⟨(type_frame (begun [0x04, 0x40, 29, 0xA2])).1 0x04 [0x40, 29, 0xA2] (by decide) (by decide)
      (by decide) (by decide),
   (fun ⟨s', h, hrx, hyes, _⟩ => ⟨s', h, hrx, (hyes (by decide)).1, (hyes (by decide)).2.1⟩)
     ((type_frame (begun [0x40, 29, 0xA2, 0x49])).2 29 0xA2 [0x49] (by decide) (by decide)
       (by decide) (by decide)),
   (fun ⟨s', h, hrx, _, hno⟩ => ⟨s', h, hrx,
       (hno (by decide)).1.trans (by decide), (hno (by decide)).2.1.trans (by decide)⟩)
     ((type_frame (started_with [0x40, 29, 0x00])).2 29 0x00 [] (by decide) (by decide)
       (by decide) (by decide))⟩

end EV3
